import Mathlib

/-!
# gst-plugin-spinnaker: the frame acquisition session of `src/gstspinnaker.c`

A shallow embedding of the GStreamer source element `spinnakersrc`:

* the session object `GstSpinnakerSrc` with `init_properties` and
  `gst_spinnaker_src_reset`;
* the Spinnaker SDK as an external collaborator: every SDK entry point the
  plugin calls is a constructor of `SdkCall`, the SDK itself is a function from
  the calls made so far and the present call to a reply, and every plugin
  function threads the list of calls it has issued;
* `ConfigureCustomImageSettings`, `gst_spinnaker_src_start`,
  `gst_spinnaker_src_stop` and `gst_spinnaker_src_create`, statement by
  statement, with `EXEANDCHECK` as the jump to the `fail` label.

The header `gstspinnaker.h` with the field types of the session object is not
part of the sources.  Fields that hold C integers are integers here, counters
and times that only grow from zero are natural numbers, and no arithmetic is
taken modulo a word size: the theorems speak about runs in which the C values
stay inside their types.
-/

namespace GstSpinnaker

/-! ## Memory and the row copy -/

/-- A byte of image or buffer memory. -/
abbrev Byte := Nat

/-- The memory behind a base pointer: the byte stored at each offset from it. -/
abbrev Mem := Int → Byte

/-- The libc call `memcpy (dst + d, src + s, n)` for two regions that do not
overlap: the `n` bytes from offset `s` of `src` land at offset `d` of `dst`. -/
def memcpy (dst : Mem) (d : Int) (src : Mem) (s : Int) (n : Nat) : Mem :=
  fun a => if d ≤ a ∧ a < d + n then src (s + (a - d)) else dst a

/-- One `memcpy` issued by the copy loop: destination offset, source offset and
byte count. -/
structure MemcpyCall where
  dst_off : Int
  src_off : Int
  n : Nat
  deriving DecidableEq, Repr

/-- The `memcpy` calls of the loop
`for (int i = 0; i < src->nHeight; i++)
   memcpy (minfo.data + i * src->gst_stride, data + i * src->nPitch, src->nPitch);`
in the order they are issued.  The byte count is `nPitch` seen as a `size_t`. -/
def copy_image_calls (nHeight gst_stride nPitch : Int) : List MemcpyCall :=
  (List.range nHeight.toNat).map fun (i : Nat) =>
    { dst_off := (i : Int) * gst_stride, src_off := (i : Int) * nPitch, n := nPitch.toNat }

/-- The copy loop of `gst_spinnaker_src_create`: the content of the mapped
buffer `minfo.data` after all the calls of `copy_image_calls` have run. -/
def copy_image_data (nHeight gst_stride nPitch : Int) (minfo_data data : Mem) : Mem :=
  (copy_image_calls nHeight gst_stride nPitch).foldl
    (fun m c => memcpy m c.dst_off data c.src_off c.n) minfo_data

/-! ## The session object -/

/-- An opaque SDK handle (`spinSystem`, `spinCameraList`, `spinCamera`,
`spinImage`, `spinNodeMapHandle`, `spinNodeHandle`); `none` is `NULL`. -/
abbrev Handle := Option Nat

/-- The two members of the parent `GstBaseSrc` that the plugin reads:
`parent.num_buffers` and the flag returned by `gst_base_src_get_do_timestamp`. -/
structure GstBaseSrc where
  num_buffers : Int
  do_timestamp : Bool
  deriving DecidableEq, Repr

/-- The instance structure `GstSpinnakerSrc`: every field the source file
touches.  `exposure` is a floating-point field that is only ever assigned the
constant 40.0 and never read; it is kept as the integer 40. -/
structure GstSpinnakerSrc where
  parent : GstBaseSrc
  hSystem : Handle
  hCameraList : Handle
  cameraPresent : Bool
  acq_started : Bool
  cameraID : Int
  nWidth : Int
  nHeight : Int
  nBytesPerPixel : Int
  binning : Int
  nPitch : Int
  gst_stride : Int
  n_frames : Nat
  total_timeouts : Nat
  framerate : Nat
  duration : Nat
  last_frame_time : Nat
  exposure : Int
  deriving DecidableEq, Repr

def DEFAULT_PROP_CAMERA : Int := 0
def DEFAULT_PROP_EXPOSURE : Int := 40
def DEFAULT_PROP_WIDTH : Int := 640
def DEFAULT_PROP_HEIGHT : Int := 512

/-- The function `init_properties`. -/
def init_properties (src : GstSpinnakerSrc) : GstSpinnakerSrc :=
  let src := { src with nWidth := DEFAULT_PROP_WIDTH }
  let src := { src with nHeight := DEFAULT_PROP_HEIGHT }
  let src := { src with nBytesPerPixel := 1 }
  let src := { src with binning := 1 }
  let src := { src with n_frames := 0 }
  let src := { src with framerate := 31 }
  let src := { src with last_frame_time := 0 }
  let src := { src with nPitch := src.nWidth * src.nBytesPerPixel }
  let src := { src with gst_stride := src.nPitch }
  let src := { src with cameraID := DEFAULT_PROP_CAMERA }
  { src with exposure := DEFAULT_PROP_EXPOSURE }

/-- The function `gst_spinnaker_src_reset`. -/
def gst_spinnaker_src_reset (src : GstSpinnakerSrc) : GstSpinnakerSrc :=
  { src with
    n_frames := 0
    total_timeouts := 0
    last_frame_time := 0
    cameraID := 0
    hCameraList := none
    cameraPresent := false
    hSystem := none }

/-- The function `gst_spinnaker_src_init` (the two calls into the base class,
`gst_base_src_set_live` and `gst_base_src_set_format`, touch no field of the
model). -/
def gst_spinnaker_src_init (src : GstSpinnakerSrc) : GstSpinnakerSrc :=
  gst_spinnaker_src_reset (init_properties src)

/-- The zero-filled instance memory GObject hands to `gst_spinnaker_src_init`,
with the base class defaults `num_buffers = -1` and `do_timestamp = FALSE`. -/
def zeroed_instance : GstSpinnakerSrc :=
  { parent := { num_buffers := -1, do_timestamp := false }
    hSystem := none, hCameraList := none, cameraPresent := false, acq_started := false
    cameraID := 0, nWidth := 0, nHeight := 0, nBytesPerPixel := 0, binning := 0
    nPitch := 0, gst_stride := 0, n_frames := 0, total_timeouts := 0, framerate := 0
    duration := 0, last_frame_time := 0, exposure := 0 }

/-- The session right after construction. -/
def fresh_instance : GstSpinnakerSrc := gst_spinnaker_src_init zeroed_instance

/-! ## The Spinnaker SDK as an external collaborator -/

/-- The SDK error code `spinError`. -/
abbrev spinError := Int

def SPINNAKER_ERR_SUCCESS : spinError := 0
def SPINNAKER_ERR_ERROR : spinError := -1001
def SPINNAKER_ERR_ACCESS_DENIED : spinError := -1005
def SPINNAKER_ERR_INVALID_HANDLE : spinError := -1006

/-- The GLib truth values of a `gboolean`, which is a C `int`. -/
abbrev gboolean := Int

def TRUE : gboolean := 1
def FALSE : gboolean := 0

/-- The node names the plugin looks up in the camera node map. -/
inductive NodeName where
  | PixelFormat
  | OffsetX
  | OffsetY
  | Width
  | Height
  deriving DecidableEq, Repr

/-- The enumeration entry names the plugin looks up (the string "Mono14"). -/
inductive EntryName where
  | Mono14
  deriving DecidableEq, Repr

/-- Every SDK entry point the source file calls, with the arguments that are
inputs of the call (handles, indices, names, values to write).  Out-parameters
are part of the reply.  `spinImageConvert` is always called with
`PixelFormat_Mono8`. -/
inductive SdkCall where
  | spinSystemGetInstance
  | spinSystemReleaseInstance (hSystem : Handle)
  | spinSystemGetCameras (hSystem hCameraList : Handle)
  | spinCameraListCreateEmpty
  | spinCameraListGetSize (hCameraList : Handle)
  | spinCameraListGet (hCameraList : Handle) (index : Int)
  | spinCameraListClear (hCameraList : Handle)
  | spinCameraListDestroy (hCameraList : Handle)
  | spinCameraInit (hCamera : Handle)
  | spinCameraDeInit (hCamera : Handle)
  | spinCameraRelease (hCamera : Handle)
  | spinCameraGetNodeMap (hCamera : Handle)
  | spinCameraBeginAcquisition (hCamera : Handle)
  | spinCameraEndAcquisition (hCamera : Handle)
  | spinCameraGetNextImage (hCamera : Handle)
  | spinImageIsIncomplete (hImage : Handle)
  | spinImageCreateEmpty
  | spinImageConvert (hSrcImage hDestImage : Handle)
  | spinImageGetBufferSize (hImage : Handle)
  | spinImageGetData (hImage : Handle)
  | spinImageRelease (hImage : Handle)
  | spinNodeMapGetNode (hNodeMap : Handle) (name : NodeName)
  | spinNodeIsAvailable (hNode : Handle)
  | spinNodeIsReadable (hNode : Handle)
  | spinNodeIsWritable (hNode : Handle)
  | spinEnumerationGetEntryByName (hNode : Handle) (name : EntryName)
  | spinEnumerationEntryGetIntValue (hEntry : Handle)
  | spinEnumerationSetIntValue (hNode : Handle) (value : Int)
  | spinIntegerGetMin (hNode : Handle)
  | spinIntegerGetMax (hNode : Handle)
  | spinIntegerSetValue (hNode : Handle) (value : Int)
  deriving DecidableEq, Repr

/-- What an SDK call hands back: the error code and the content of its
out-parameter after the call, whichever kind it has (a handle, an integer, a
flag, or the pixel memory behind a data pointer). -/
structure Reply where
  err : spinError
  handle : Handle
  value : Int
  flag : Bool
  data : Mem

/-- The SDK calls issued so far, oldest first. -/
abbrev Trace := List SdkCall

/-- The SDK: its reply to a call may depend on every call made before it. -/
abbrev Sdk := Trace → SdkCall → Reply

/-- Issue one SDK call: look at the reply, record the call, go on with `k`. -/
def spin {β : Type} (sdk : Sdk) (tr : Trace) (c : SdkCall) (k : Reply → Trace → β) : β :=
  k (sdk tr c) (tr ++ [c])

/-- The macro `EXEANDCHECK(function)`: run the SDK call and jump to the label
`fail` when the error code is not `SPINNAKER_ERR_SUCCESS`; otherwise fall
through to `k`.  Both continuations see the reply, as an out-parameter that
names a field of the session is written by the call itself. -/
def EXEANDCHECK {β : Type} (sdk : Sdk) (tr : Trace) (c : SdkCall)
    (fail : Reply → Trace → β) (k : Reply → Trace → β) : β :=
  spin sdk tr c fun Ret tr =>
    if SPINNAKER_ERR_SUCCESS ≠ Ret.err then fail Ret tr else k Ret tr

/-- The function `IsAvailableAndReadable`: two SDK queries whose error codes
are only printed; the answer is `pbReadable && pbAvailable`. -/
def IsAvailableAndReadable (sdk : Sdk) (hNode : Handle) (tr : Trace) : Bool × Trace :=
  spin sdk tr (.spinNodeIsAvailable hNode) fun r tr =>
  let pbAvailable := r.flag
  spin sdk tr (.spinNodeIsReadable hNode) fun r tr =>
  let pbReadable := r.flag
  (pbReadable && pbAvailable, tr)

/-- The function `IsAvailableAndWritable`: two SDK queries whose error codes
are only printed; the answer is `pbWritable && pbAvailable`. -/
def IsAvailableAndWritable (sdk : Sdk) (hNode : Handle) (tr : Trace) : Bool × Trace :=
  spin sdk tr (.spinNodeIsAvailable hNode) fun r tr =>
  let pbAvailable := r.flag
  spin sdk tr (.spinNodeIsWritable hNode) fun r tr =>
  let pbWritable := r.flag
  (pbWritable && pbAvailable, tr)

/-- The function `ConfigureCustomImageSettings`: pixel format, offset X,
offset Y, width, height, in this order; every `return` of the source is a
pair of the returned error code and the calls issued up to it. -/
def ConfigureCustomImageSettings (sdk : Sdk) (hNodeMap : Handle) (tr : Trace) :
    spinError × Trace :=
  -- pixel format
  spin sdk tr (.spinNodeMapGetNode hNodeMap .PixelFormat) fun r tr =>
  let hPixelFormat := r.handle
  if r.err ≠ SPINNAKER_ERR_SUCCESS then (r.err, tr) else
  let chk := IsAvailableAndReadable sdk hPixelFormat tr
  if chk.1 = false then (SPINNAKER_ERR_ACCESS_DENIED, chk.2) else
  spin sdk chk.2 (.spinEnumerationGetEntryByName hPixelFormat .Mono14) fun r tr =>
  let hPixelFormatMono8 := r.handle
  if r.err ≠ SPINNAKER_ERR_SUCCESS then (r.err, tr) else
  let chk := IsAvailableAndReadable sdk hPixelFormatMono8 tr
  if chk.1 = false then (SPINNAKER_ERR_ACCESS_DENIED, chk.2) else
  spin sdk chk.2 (.spinEnumerationEntryGetIntValue hPixelFormatMono8) fun r tr =>
  let pixelFormatMono8 := r.value
  if r.err ≠ SPINNAKER_ERR_SUCCESS then (r.err, tr) else
  let chk := IsAvailableAndWritable sdk hPixelFormat tr
  if chk.1 = false then (SPINNAKER_ERR_ACCESS_DENIED, chk.2) else
  spin sdk chk.2 (.spinEnumerationSetIntValue hPixelFormat pixelFormatMono8) fun r tr =>
  if r.err ≠ SPINNAKER_ERR_SUCCESS then (r.err, tr) else
  -- offset X
  spin sdk tr (.spinNodeMapGetNode hNodeMap .OffsetX) fun r tr =>
  let hOffsetX := r.handle
  if r.err ≠ SPINNAKER_ERR_SUCCESS then (r.err, tr) else
  let chk := IsAvailableAndWritable sdk hOffsetX tr
  if chk.1 = false then (SPINNAKER_ERR_ACCESS_DENIED, chk.2) else
  spin sdk chk.2 (.spinIntegerGetMin hOffsetX) fun r tr =>
  let offsetXMin := r.value
  if r.err ≠ SPINNAKER_ERR_SUCCESS then (r.err, tr) else
  spin sdk tr (.spinIntegerSetValue hOffsetX offsetXMin) fun r tr =>
  if r.err ≠ SPINNAKER_ERR_SUCCESS then (r.err, tr) else
  -- offset Y
  spin sdk tr (.spinNodeMapGetNode hNodeMap .OffsetY) fun r tr =>
  let hOffsetY := r.handle
  if r.err ≠ SPINNAKER_ERR_SUCCESS then (r.err, tr) else
  let chk := IsAvailableAndWritable sdk hOffsetY tr
  if chk.1 = false then (SPINNAKER_ERR_ACCESS_DENIED, chk.2) else
  spin sdk chk.2 (.spinIntegerGetMin hOffsetY) fun r tr =>
  let offsetYMin := r.value
  if r.err ≠ SPINNAKER_ERR_SUCCESS then (r.err, tr) else
  spin sdk tr (.spinIntegerSetValue hOffsetY offsetYMin) fun r tr =>
  if r.err ≠ SPINNAKER_ERR_SUCCESS then (r.err, tr) else
  -- maximum width
  spin sdk tr (.spinNodeMapGetNode hNodeMap .Width) fun r tr =>
  let hWidth := r.handle
  if r.err ≠ SPINNAKER_ERR_SUCCESS then (r.err, tr) else
  let chk := IsAvailableAndWritable sdk hWidth tr
  if chk.1 = false then (SPINNAKER_ERR_ACCESS_DENIED, chk.2) else
  spin sdk chk.2 (.spinIntegerGetMax hWidth) fun r tr =>
  let widthToSet := r.value
  if r.err ≠ SPINNAKER_ERR_SUCCESS then (r.err, tr) else
  spin sdk tr (.spinIntegerSetValue hWidth widthToSet) fun r tr =>
  if r.err ≠ SPINNAKER_ERR_SUCCESS then (r.err, tr) else
  -- maximum height
  spin sdk tr (.spinNodeMapGetNode hNodeMap .Height) fun r tr =>
  let hHeight := r.handle
  if r.err ≠ SPINNAKER_ERR_SUCCESS then (r.err, tr) else
  let chk := IsAvailableAndWritable sdk hHeight tr
  if chk.1 = false then (SPINNAKER_ERR_ACCESS_DENIED, chk.2) else
  spin sdk chk.2 (.spinIntegerGetMax hHeight) fun r tr =>
  let HeightToSet := r.value
  if r.err ≠ SPINNAKER_ERR_SUCCESS then (r.err, tr) else
  spin sdk tr (.spinIntegerSetValue hHeight HeightToSet) fun r tr =>
  if r.err ≠ SPINNAKER_ERR_SUCCESS then (r.err, tr) else
  (r.err, tr)

/-- The first segment of `ConfigureCustomImageSettings`: the pixel format (lookup of the node,
readability checks, lookup of the entry "Mono14" and of its value, writability check, write); `k`
is the rest of the function. -/
def configure_pixel_format (sdk : Sdk) (hNodeMap : Handle) (tr : Trace)
    (k : Reply → Trace → spinError × Trace) : spinError × Trace :=
  spin sdk tr (.spinNodeMapGetNode hNodeMap .PixelFormat) fun r tr =>
  let hPixelFormat := r.handle
  if r.err ≠ SPINNAKER_ERR_SUCCESS then (r.err, tr) else
  let chk := IsAvailableAndReadable sdk hPixelFormat tr
  if chk.1 = false then (SPINNAKER_ERR_ACCESS_DENIED, chk.2) else
  spin sdk chk.2 (.spinEnumerationGetEntryByName hPixelFormat .Mono14) fun r tr =>
  let hPixelFormatMono8 := r.handle
  if r.err ≠ SPINNAKER_ERR_SUCCESS then (r.err, tr) else
  let chk := IsAvailableAndReadable sdk hPixelFormatMono8 tr
  if chk.1 = false then (SPINNAKER_ERR_ACCESS_DENIED, chk.2) else
  spin sdk chk.2 (.spinEnumerationEntryGetIntValue hPixelFormatMono8) fun r tr =>
  let pixelFormatMono8 := r.value
  if r.err ≠ SPINNAKER_ERR_SUCCESS then (r.err, tr) else
  let chk := IsAvailableAndWritable sdk hPixelFormat tr
  if chk.1 = false then (SPINNAKER_ERR_ACCESS_DENIED, chk.2) else
  spin sdk chk.2 (.spinEnumerationSetIntValue hPixelFormat pixelFormatMono8) fun r tr =>
  if r.err ≠ SPINNAKER_ERR_SUCCESS then (r.err, tr) else
  k r tr

/-- One of the four integer segments of `ConfigureCustomImageSettings` (offset x, offset y, width,
height): lookup of the node, writability check, retrieval of the value to set by `bound`
(`spinIntegerGetMin` for the offsets, `spinIntegerGetMax` for width and height), write; `k` is the
rest of the function. -/
def configure_integer (sdk : Sdk) (hNodeMap : Handle) (name : NodeName)
    (bound : Handle → SdkCall) (tr : Trace)
    (k : Reply → Trace → spinError × Trace) : spinError × Trace :=
  spin sdk tr (.spinNodeMapGetNode hNodeMap name) fun r tr =>
  let hNode := r.handle
  if r.err ≠ SPINNAKER_ERR_SUCCESS then (r.err, tr) else
  let chk := IsAvailableAndWritable sdk hNode tr
  if chk.1 = false then (SPINNAKER_ERR_ACCESS_DENIED, chk.2) else
  spin sdk chk.2 (bound hNode) fun r tr =>
  let toSet := r.value
  if r.err ≠ SPINNAKER_ERR_SUCCESS then (r.err, tr) else
  spin sdk tr (.spinIntegerSetValue hNode toSet) fun r tr =>
  if r.err ≠ SPINNAKER_ERR_SUCCESS then (r.err, tr) else
  k r tr

/-! ## Start and stop -/

/-- What a base-class callback leaves behind: its return value, the session
object and the SDK calls issued so far. -/
structure Outcome where
  ret : gboolean
  src : GstSpinnakerSrc
  trace : Trace

/-- The code after the label `fail` of `gst_spinnaker_src_start`: three
unchecked SDK calls, then `return FALSE`. -/
def gst_spinnaker_src_start_fail (sdk : Sdk) (src : GstSpinnakerSrc) (tr : Trace) : Outcome :=
  spin sdk tr (.spinCameraListClear src.hCameraList) fun _ tr =>
  spin sdk tr (.spinCameraListDestroy src.hCameraList) fun _ tr =>
  spin sdk tr (.spinSystemReleaseInstance src.hSystem) fun _ tr =>
  { ret := FALSE, src := src, trace := tr }

/-- The function `gst_spinnaker_src_start`.  The two early exits after
`spinCameraGetNodeMap` and `ConfigureCustomImageSettings` are the statements
`return err;` of the source: the error code itself becomes the `gboolean`
result and the label `fail` is not visited. -/
def gst_spinnaker_src_start (sdk : Sdk) (src : GstSpinnakerSrc) (tr : Trace) : Outcome :=
  EXEANDCHECK sdk tr .spinSystemGetInstance
    (fun r tr => gst_spinnaker_src_start_fail sdk { src with hSystem := r.handle } tr) fun r tr =>
  let src := { src with hSystem := r.handle }
  EXEANDCHECK sdk tr .spinCameraListCreateEmpty
    (fun r tr => gst_spinnaker_src_start_fail sdk { src with hCameraList := r.handle } tr) fun r tr =>
  let src := { src with hCameraList := r.handle }
  let fail := fun (_ : Reply) (tr : Trace) => gst_spinnaker_src_start_fail sdk src tr
  EXEANDCHECK sdk tr (.spinSystemGetCameras src.hSystem src.hCameraList) fail fun _ tr =>
  EXEANDCHECK sdk tr (.spinCameraListGetSize src.hCameraList) fail fun r tr =>
  let numCameras := r.value
  if numCameras = 0 then
    EXEANDCHECK sdk tr (.spinCameraListClear src.hCameraList) fail fun _ tr =>
    EXEANDCHECK sdk tr (.spinCameraListDestroy src.hCameraList) fail fun _ tr =>
    EXEANDCHECK sdk tr (.spinSystemReleaseInstance src.hSystem) fail fun r tr =>
    fail r tr
  else
  EXEANDCHECK sdk tr (.spinCameraListGet src.hCameraList src.cameraID) fail fun r tr =>
  let hCamera := r.handle
  EXEANDCHECK sdk tr (.spinCameraInit hCamera) fail fun _ tr =>
  spin sdk tr (.spinCameraGetNodeMap hCamera) fun r tr =>
  let hNodeMap := r.handle
  if r.err ≠ SPINNAKER_ERR_SUCCESS then { ret := r.err, src := src, trace := tr } else
  let cfg := ConfigureCustomImageSettings sdk hNodeMap tr
  if cfg.1 ≠ SPINNAKER_ERR_SUCCESS then { ret := cfg.1, src := src, trace := cfg.2 } else
  EXEANDCHECK sdk cfg.2 (.spinCameraBeginAcquisition hCamera) fail fun _ tr =>
  EXEANDCHECK sdk tr (.spinCameraRelease hCamera) fail fun _ tr =>
  { ret := TRUE, src := { src with cameraPresent := true }, trace := tr }

/-- The function `gst_spinnaker_src_stop`: both the normal exit and the label
`fail` end in `return TRUE`; only the normal exit resets the session. -/
def gst_spinnaker_src_stop (sdk : Sdk) (src : GstSpinnakerSrc) (tr : Trace) : Outcome :=
  let fail := fun (_ : Reply) (tr : Trace) => ({ ret := TRUE, src := src, trace := tr } : Outcome)
  EXEANDCHECK sdk tr (.spinCameraListGet src.hCameraList src.cameraID) fail fun r tr =>
  let hCamera := r.handle
  EXEANDCHECK sdk tr (.spinCameraEndAcquisition hCamera) fail fun _ tr =>
  EXEANDCHECK sdk tr (.spinCameraDeInit hCamera) fail fun _ tr =>
  EXEANDCHECK sdk tr (.spinCameraRelease hCamera) fail fun _ tr =>
  EXEANDCHECK sdk tr (.spinCameraListClear src.hCameraList) fail fun _ tr =>
  EXEANDCHECK sdk tr (.spinCameraListDestroy src.hCameraList) fail fun _ tr =>
  EXEANDCHECK sdk tr (.spinSystemReleaseInstance src.hSystem) fail fun _ tr =>
  { ret := TRUE, src := gst_spinnaker_src_reset src, trace := tr }

/-! ## Frame production -/

/-- The result type `GstFlowReturn`, restricted to the values the plugin returns. -/
inductive GstFlowReturn where
  | GST_FLOW_OK
  | GST_FLOW_EOS
  | GST_FLOW_ERROR
  deriving DecidableEq, Repr

/-- A `GstBuffer`: its allocated size, the memory behind `minfo.data`, and the
metadata the plugin stamps.  `none` stands for `GST_CLOCK_TIME_NONE` and
`GST_BUFFER_OFFSET_NONE`, the values of a new buffer. -/
structure GstBuffer where
  size : Nat
  data : Mem
  pts : Option Nat
  dts : Option Nat
  duration : Option Nat
  offset : Option Nat
  offset_end : Option Nat

/-- The call `gst_buffer_new_and_alloc (size)`; `content` is whatever the newly
allocated memory holds. -/
def gst_buffer_new_and_alloc (content : Mem) (size : Int) : GstBuffer :=
  { size := size.toNat, data := content, pts := none, dts := none, duration := none,
    offset := none, offset_end := none }

/-- What `gst_spinnaker_src_create` leaves behind: its return value, the
session object, the buffer stored in `*buf` (`none` when the function left
before allocating one) and the SDK calls issued so far. -/
structure CreateOutcome where
  ret : GstFlowReturn
  src : GstSpinnakerSrc
  buf : Option GstBuffer
  trace : Trace

/-- The function `gst_spinnaker_src_create`.  `content` is the prior content of
the memory `gst_buffer_new_and_alloc` returns.  The local flag `hasFailed` is
written and never read, so the two unchecked calls `spinImageCreateEmpty` and
`spinImageConvert` only record themselves.  The quotient
`1000000000.0 / src->framerate` stored into the integer field `duration` is
the integer quotient for a positive integer frame rate. -/
def gst_spinnaker_src_create (sdk : Sdk) (content : Mem) (src : GstSpinnakerSrc)
    (tr : Trace) : CreateOutcome :=
  let fail := fun (buf : Option GstBuffer) (_ : Reply) (tr : Trace) =>
    ({ ret := .GST_FLOW_ERROR, src := src, buf := buf, trace := tr } : CreateOutcome)
  EXEANDCHECK sdk tr (.spinCameraListGet src.hCameraList src.cameraID) (fail none) fun r tr =>
  let hCamera := r.handle
  EXEANDCHECK sdk tr (.spinCameraGetNextImage hCamera) (fail none) fun r tr =>
  let hResultImage := r.handle
  EXEANDCHECK sdk tr (.spinCameraRelease hCamera) (fail none) fun _ tr =>
  EXEANDCHECK sdk tr (.spinImageIsIncomplete hResultImage) (fail none) fun _ tr =>
  let buf := gst_buffer_new_and_alloc content (src.nHeight * src.nWidth * 16)
  spin sdk tr .spinImageCreateEmpty fun r tr =>
  let hConvertedImage := r.handle
  spin sdk tr (.spinImageConvert hResultImage hConvertedImage) fun _ tr =>
  EXEANDCHECK sdk tr (.spinImageGetBufferSize hConvertedImage) (fail (some buf)) fun _ tr =>
  EXEANDCHECK sdk tr (.spinImageGetBufferSize hResultImage) (fail (some buf)) fun _ tr =>
  EXEANDCHECK sdk tr (.spinImageGetData hConvertedImage) (fail (some buf)) fun r tr =>
  let data := r.data
  let buf := { buf with
    data := copy_image_data src.nHeight src.gst_stride src.nPitch buf.data data }
  EXEANDCHECK sdk tr (.spinImageRelease hResultImage) (fail (some buf)) fun _ tr =>
  let src := { src with duration := 1000000000 / src.framerate }
  let src := { src with last_frame_time := src.last_frame_time + src.duration }
  let buf := if !src.parent.do_timestamp then
      { buf with pts := some src.last_frame_time, dts := some src.last_frame_time }
    else buf
  let buf := { buf with duration := some src.duration }
  let buf := { buf with offset := some src.n_frames }
  let src := { src with n_frames := src.n_frames + 1 }
  let buf := { buf with offset_end := some src.n_frames }
  if src.parent.num_buffers > 0 ∧ (src.n_frames : Int) ≥ src.parent.num_buffers then
    { ret := .GST_FLOW_EOS, src := src, buf := some buf, trace := tr }
  else
    { ret := .GST_FLOW_OK, src := src, buf := some buf, trace := tr }

/-- The host pipeline calling `gst_spinnaker_src_create` `n` times in a row:
the outcomes in call order.  Call number `k` gets the newly allocated memory
`content k`, and each call starts from the session and the SDK history the
previous one left. -/
def create_calls (sdk : Sdk) (content : Nat → Mem) :
    Nat → GstSpinnakerSrc → Trace → Nat → List CreateOutcome
  | 0, _, _, _ => []
  | n + 1, src, tr, k =>
    let out := gst_spinnaker_src_create sdk (content k) src tr
    out :: create_calls sdk content n out.src out.trace (k + 1)

/-! ## Properties -/

def PROP_CAMERA : Nat := 1
def PROP_WIDTH : Nat := 2
def PROP_HEIGHT : Nat := 3

/-- What a callback without a result leaves behind: the session object and
the SDK calls issued so far. -/
structure Effect where
  src : GstSpinnakerSrc
  trace : Trace

/-- The function `gst_spinnaker_src_set_property`; `value` is the integer
`g_value_get_int (value)`.  The `switch` on `property_id` is a chain of tests.
The locals `hWidth` and `hHeight` start as `NULL`; the `else` branch of the
height case passes `hWidth`, which only the width case assigns.  Every exit,
the label `fail` included, is a plain `return`. -/
def gst_spinnaker_src_set_property (sdk : Sdk) (property_id : Nat) (value : Int)
    (src : GstSpinnakerSrc) (tr : Trace) : Effect :=
  let fail := fun (_ : Reply) (tr : Trace) => ({ src := src, trace := tr } : Effect)
  EXEANDCHECK sdk tr (.spinCameraListGet src.hCameraList src.cameraID) fail fun r tr =>
  let hCamera := r.handle
  EXEANDCHECK sdk tr (.spinCameraGetNodeMap hCamera) fail fun r tr =>
  let hNodeMap := r.handle
  let hWidth : Handle := none
  if property_id = PROP_CAMERA then
    { src := { src with cameraID := value }, trace := tr }
  else if property_id = PROP_WIDTH then
    EXEANDCHECK sdk tr (.spinNodeMapGetNode hNodeMap .Width) fail fun r tr =>
    let hWidth := r.handle
    let chk := IsAvailableAndWritable sdk hWidth tr
    if chk.1 then
      EXEANDCHECK sdk chk.2 (.spinIntegerGetMax hWidth) fail fun r tr =>
      let maxWidth := r.value
      let param := value
      if param > maxWidth then
        EXEANDCHECK sdk tr (.spinIntegerSetValue hWidth maxWidth) fail fun _ tr =>
        { src := { src with nWidth := maxWidth }, trace := tr }
      else
        EXEANDCHECK sdk tr (.spinIntegerSetValue hWidth param) fail fun _ tr =>
        { src := { src with nWidth := param }, trace := tr }
    else
      { src := src, trace := chk.2 }
  else if property_id = PROP_HEIGHT then
    EXEANDCHECK sdk tr (.spinNodeMapGetNode hNodeMap .Height) fail fun r tr =>
    let hHeight := r.handle
    let chk := IsAvailableAndWritable sdk hHeight tr
    if chk.1 then
      EXEANDCHECK sdk chk.2 (.spinIntegerGetMax hHeight) fail fun r tr =>
      let maxHeight := r.value
      let param := value
      if param > maxHeight then
        EXEANDCHECK sdk tr (.spinIntegerSetValue hHeight maxHeight) fail fun _ tr =>
        { src := { src with nHeight := maxHeight }, trace := tr }
      else
        EXEANDCHECK sdk tr (.spinIntegerSetValue hWidth param) fail fun _ tr =>
        { src := { src with nHeight := param }, trace := tr }
    else
      { src := src, trace := chk.2 }
  else
    { src := src, trace := tr }

/-! ## Vocabulary of the statements -/

/-- The session after a call of `gst_spinnaker_src_create` that stamped a
buffer: `duration`, `last_frame_time` and `n_frames` as the source updates
them. -/
def stamped (src : GstSpinnakerSrc) : GstSpinnakerSrc :=
  { src with
    duration := 1000000000 / src.framerate
    last_frame_time := src.last_frame_time + 1000000000 / src.framerate
    n_frames := src.n_frames + 1 }

/-- What one call of `gst_spinnaker_src_create` on the session `src` does:
either it left through `fail` with the session untouched, or it stamped a
buffer with the offsets and times computed from `src`; that buffer has the
allocated size and holds the row copy of the pixel data some
`spinImageGetData` call returned onto the allocated memory. -/
def create_post (sdk : Sdk) (content : Mem) (src : GstSpinnakerSrc)
    (out : CreateOutcome) : Prop :=
  (out.ret = .GST_FLOW_ERROR ∧ out.src = src) ∨
  (out.ret ≠ .GST_FLOW_ERROR ∧ out.src = stamped src ∧
    ∃ buf, out.buf = some buf ∧
      buf.offset = some src.n_frames ∧ buf.offset_end = some (src.n_frames + 1) ∧
      buf.duration = some (1000000000 / src.framerate) ∧
      buf.pts = (if src.parent.do_timestamp then none
        else some (src.last_frame_time + 1000000000 / src.framerate)) ∧
      buf.dts = (if src.parent.do_timestamp then none
        else some (src.last_frame_time + 1000000000 / src.framerate)) ∧
      buf.size = (src.nHeight * src.nWidth * 16).toNat ∧
      ∃ (t : Trace) (hConvertedImage : Handle),
        buf.data = copy_image_data src.nHeight src.gst_stride src.nPitch content
          (sdk t (.spinImageGetData hConvertedImage)).data)

/-- The calls that produced a frame: those that did not return
`GST_FLOW_ERROR`. -/
def produced (outs : List CreateOutcome) : List CreateOutcome :=
  outs.filter fun o => decide (o.ret ≠ .GST_FLOW_ERROR)

/-- The number of SDK calls a run issued when it extended `tr` to `tr2`. -/
def issued (tr tr2 : Trace) : Nat := tr2.length - tr.length

/-- The seven SDK calls of `gst_spinnaker_src_stop` in source order: the
camera lookup and the six release steps, with the camera handle that the
lookup returns. -/
def stop_steps (sdk : Sdk) (src : GstSpinnakerSrc) (tr : Trace) : List SdkCall :=
  let hCamera := (sdk tr (.spinCameraListGet src.hCameraList src.cameraID)).handle
  [.spinCameraListGet src.hCameraList src.cameraID,
   .spinCameraEndAcquisition hCamera,
   .spinCameraDeInit hCamera,
   .spinCameraRelease hCamera,
   .spinCameraListClear src.hCameraList,
   .spinCameraListDestroy src.hCameraList,
   .spinSystemReleaseInstance src.hSystem]

/-- A list of SDK calls, each under `EXEANDCHECK` with a `fail` label that
issues nothing more: the calls issued, and whether all of them succeeded. -/
def checked_calls (sdk : Sdk) : Trace → List SdkCall → Trace × Bool
  | tr, [] => (tr, true)
  | tr, c :: cs =>
    if SPINNAKER_ERR_SUCCESS ≠ (sdk tr c).err then (tr ++ [c], false)
    else checked_calls sdk (tr ++ [c]) cs

/-- The six SDK calls with which the width and the height case of
`gst_spinnaker_src_set_property` reach the device maximum: camera lookup, node
map, node lookup, the two queries of `IsAvailableAndWritable`, and
`spinIntegerGetMax`. -/
def property_calls (src : GstSpinnakerSrc) (name : NodeName) (hCamera hNodeMap hNode : Handle) :
    List SdkCall :=
  [.spinCameraListGet src.hCameraList src.cameraID,
   .spinCameraGetNodeMap hCamera,
   .spinNodeMapGetNode hNodeMap name,
   .spinNodeIsAvailable hNode,
   .spinNodeIsWritable hNode,
   .spinIntegerGetMax hNode]

/-- The SDK answers the calls of `property_calls`, each at the history the
calls before it make, so that the node `name` is reached, available and
writable, and reports a maximum: the camera lookup succeeds with `hCamera`,
its node map is `hNodeMap`, the node has the handle `hNode`, both queries
answer yes, and `spinIntegerGetMax` succeeds with `max`. -/
def node_ready (sdk : Sdk) (src : GstSpinnakerSrc) (tr : Trace) (name : NodeName)
    (hCamera hNodeMap hNode : Handle) (max : Int) : Prop :=
  (sdk tr (.spinCameraListGet src.hCameraList src.cameraID)).err = SPINNAKER_ERR_SUCCESS ∧
  (sdk tr (.spinCameraListGet src.hCameraList src.cameraID)).handle = hCamera ∧
  (sdk (tr ++ (property_calls src name hCamera hNodeMap hNode).take 1)
    (.spinCameraGetNodeMap hCamera)).err = SPINNAKER_ERR_SUCCESS ∧
  (sdk (tr ++ (property_calls src name hCamera hNodeMap hNode).take 1)
    (.spinCameraGetNodeMap hCamera)).handle = hNodeMap ∧
  (sdk (tr ++ (property_calls src name hCamera hNodeMap hNode).take 2)
    (.spinNodeMapGetNode hNodeMap name)).err = SPINNAKER_ERR_SUCCESS ∧
  (sdk (tr ++ (property_calls src name hCamera hNodeMap hNode).take 2)
    (.spinNodeMapGetNode hNodeMap name)).handle = hNode ∧
  (sdk (tr ++ (property_calls src name hCamera hNodeMap hNode).take 3)
    (.spinNodeIsAvailable hNode)).flag = true ∧
  (sdk (tr ++ (property_calls src name hCamera hNodeMap hNode).take 4)
    (.spinNodeIsWritable hNode)).flag = true ∧
  (sdk (tr ++ (property_calls src name hCamera hNodeMap hNode).take 5)
    (.spinIntegerGetMax hNode)).err = SPINNAKER_ERR_SUCCESS ∧
  (sdk (tr ++ (property_calls src name hCamera hNodeMap hNode).take 5)
    (.spinIntegerGetMax hNode)).value = max

/-- The node handle a call writes a value to: the two setters of the SDK write, no other call
does. -/
def written_node : SdkCall → Option Handle
  | .spinEnumerationSetIntValue h _ => some h
  | .spinIntegerSetValue h _ => some h
  | _ => none

/-- Positions `i`, `i + 1` of the history `t` hold the two calls of `IsAvailableAndWritable` on the
node `h`, and the SDK answered true to both. -/
def check_passed (sdk : Sdk) (t : Trace) (i : Nat) (h : Handle) : Prop :=
  t[i]? = some (.spinNodeIsAvailable h) ∧ t[i + 1]? = some (.spinNodeIsWritable h) ∧
  (sdk (t.take i) (.spinNodeIsAvailable h)).flag = true ∧
  (sdk (t.take (i + 1)) (.spinNodeIsWritable h)).flag = true

/-- Positions `i`, `i + 1` of the history `t` hold the two calls of `IsAvailableAndWritable` on the
node `h`, and the check is false: the SDK did not answer true to both. -/
def check_failed (sdk : Sdk) (t : Trace) (i : Nat) (h : Handle) : Prop :=
  t[i]? = some (.spinNodeIsAvailable h) ∧ t[i + 1]? = some (.spinNodeIsWritable h) ∧
  ((sdk (t.take (i + 1)) (.spinNodeIsWritable h)).flag
    && (sdk (t.take i) (.spinNodeIsAvailable h)).flag) = false

/-- From position `b` on, the history `t` holds a lookup of the node `name` in `hNodeMap` and,
later, a write to the handle this lookup returned, which the SDK reported as successful. -/
def wrote (sdk : Sdk) (t : Trace) (b : Nat) (hNodeMap : Handle) (name : NodeName) : Prop :=
  ∃ (i p : Nat) (c : SdkCall), b ≤ i ∧ i < p ∧
    t[i]? = some (.spinNodeMapGetNode hNodeMap name) ∧ t[p]? = some c ∧
    written_node c = some (sdk (t.take i) (.spinNodeMapGetNode hNodeMap name)).handle ∧
    (sdk (t.take p) c).err = SPINNAKER_ERR_SUCCESS

/-- Invariant of a run of `ConfigureCustomImageSettings` started at position `b`: every write so
far follows a passed check of the written node, and no check so far has failed. -/
def configure_inv (sdk : Sdk) (b : Nat) (t : Trace) : Prop :=
  (∀ (p : Nat) (c : SdkCall) (h : Handle), b ≤ p → t[p]? = some c → written_node c = some h →
    ∃ i, b ≤ i ∧ i + 1 < p ∧ check_passed sdk t i h) ∧
  (∀ (i : Nat) (h : Handle), b ≤ i → ¬ check_failed sdk t i h)

/-- What a finished run `out` of `ConfigureCustomImageSettings` started at position `b` satisfies:
writes follow passed checks, a failed check ends the run with `SPINNAKER_ERR_ACCESS_DENIED`, and
success means every one of the five nodes was written. -/
def configure_post (sdk : Sdk) (b : Nat) (hNodeMap : Handle) (out : spinError × Trace) : Prop :=
  (∀ (p : Nat) (c : SdkCall) (h : Handle), b ≤ p → out.2[p]? = some c →
    written_node c = some h → ∃ i, b ≤ i ∧ i + 1 < p ∧ check_passed sdk out.2 i h) ∧
  (∀ (i : Nat) (h : Handle), b ≤ i → check_failed sdk out.2 i h →
    out.1 = SPINNAKER_ERR_ACCESS_DENIED ∧ out.2.length = i + 2) ∧
  (out.1 = SPINNAKER_ERR_SUCCESS → ∀ name : NodeName, wrote sdk out.2 b hNodeMap name)

/-! ## Concrete SDKs and sessions -/

/-- A successful reply with no handle, the integer 1 and the flag set. -/
def reply_ok : Reply :=
  { err := SPINNAKER_ERR_SUCCESS, handle := none, value := 1, flag := true, data := fun _ => 0 }

/-- A failed reply with error code `e`. -/
def reply_error (e : spinError) : Reply :=
  { err := e, handle := none, value := 0, flag := false, data := fun _ => 0 }

/-- An SDK with one healthy camera: every call succeeds, every node is
available, readable and writable, and each kind of object has its own
handle. -/
def sdk_ok : Sdk := fun _ c =>
  match c with
  | .spinSystemGetInstance => { reply_ok with handle := some 1 }
  | .spinCameraListCreateEmpty => { reply_ok with handle := some 2 }
  | .spinCameraListGet _ _ => { reply_ok with handle := some 3 }
  | .spinCameraGetNodeMap _ => { reply_ok with handle := some 4 }
  | .spinCameraGetNextImage _ => { reply_ok with handle := some 5 }
  | .spinImageCreateEmpty => { reply_ok with handle := some 6 }
  | .spinNodeMapGetNode _ .PixelFormat => { reply_ok with handle := some 10 }
  | .spinNodeMapGetNode _ .OffsetX => { reply_ok with handle := some 11 }
  | .spinNodeMapGetNode _ .OffsetY => { reply_ok with handle := some 12 }
  | .spinNodeMapGetNode _ .Width => { reply_ok with handle := some 13 }
  | .spinNodeMapGetNode _ .Height => { reply_ok with handle := some 14 }
  | .spinEnumerationGetEntryByName _ _ => { reply_ok with handle := some 20 }
  | .spinIntegerGetMin _ => { reply_ok with value := 0 }
  | .spinIntegerGetMax (some 13) => { reply_ok with value := 640 }
  | .spinIntegerGetMax (some 14) => { reply_ok with value := 512 }
  | .spinImageIsIncomplete _ => { reply_ok with flag := false }
  | _ => reply_ok

/-- As `sdk_ok`, but the camera lookup on a `NULL` list is rejected. -/
def sdk_checks_handles : Sdk := fun t c =>
  match c with
  | .spinCameraListGet none _ => reply_error SPINNAKER_ERR_INVALID_HANDLE
  | _ => sdk_ok t c

/-- As `sdk_ok`, but the enumeration finds no camera. -/
def sdk_no_camera : Sdk := fun t c =>
  match c with
  | .spinCameraListGetSize _ => { reply_ok with value := 0 }
  | _ => sdk_ok t c

/-- As `sdk_ok`, but `spinCameraInit` fails. -/
def sdk_init_fails : Sdk := fun t c =>
  match c with
  | .spinCameraInit _ => reply_error SPINNAKER_ERR_ERROR
  | _ => sdk_ok t c

/-- As `sdk_ok`, but `spinCameraGetNodeMap` fails. -/
def sdk_nodemap_fails : Sdk := fun t c =>
  match c with
  | .spinCameraGetNodeMap _ => reply_error SPINNAKER_ERR_ERROR
  | _ => sdk_ok t c

/-- As `sdk_ok`, but no node is writable. -/
def sdk_read_only : Sdk := fun t c =>
  match c with
  | .spinNodeIsWritable _ => { reply_ok with flag := false }
  | _ => sdk_ok t c

/-- As `sdk_ok`, but the node `Width` (handle 13) is not writable. -/
def sdk_width_read_only : Sdk := fun t c =>
  match c with
  | .spinNodeIsWritable (some 13) => { reply_ok with flag := false }
  | _ => sdk_ok t c

/-- As `sdk_checks_handles`, but `spinCameraEndAcquisition` fails. -/
def sdk_end_acquisition_fails : Sdk := fun t c =>
  match c with
  | .spinCameraEndAcquisition _ => reply_error SPINNAKER_ERR_ERROR
  | _ => sdk_checks_handles t c

/-- As `sdk_ok`, but the call `spinCameraGetNextImage` issued as SDK call
number 11 of the session (the second frame of a run of
`gst_spinnaker_src_create`) fails. -/
def sdk_timeout_once : Sdk := fun t c =>
  match c with
  | .spinCameraGetNextImage _ =>
    if t.length = 11 then reply_error SPINNAKER_ERR_ERROR else sdk_ok t c
  | _ => sdk_ok t c

/-- As `sdk_checks_handles`, but the sensor is 320 by 240. -/
def sdk_small_sensor : Sdk := fun t c =>
  match c with
  | .spinIntegerGetMax (some 13) => { reply_ok with value := 320 }
  | .spinIntegerGetMax (some 14) => { reply_ok with value := 240 }
  | _ => sdk_checks_handles t c

/-- As `sdk_small_sensor`, but the device rejects every integer write. -/
def sdk_rejects_write : Sdk := fun t c =>
  match c with
  | .spinIntegerSetValue _ _ => reply_error SPINNAKER_ERR_ERROR
  | _ => sdk_small_sensor t c

/-- As `sdk_checks_handles`, but an integer write through a `NULL` node handle
is rejected too. -/
def sdk_rejects_null_write : Sdk := fun t c =>
  match c with
  | .spinIntegerSetValue none _ => reply_error SPINNAKER_ERR_INVALID_HANDLE
  | _ => sdk_checks_handles t c

/-- As `sdk_ok`, but `spinImageGetData` fails. -/
def sdk_getdata_fails : Sdk := fun t c =>
  match c with
  | .spinImageGetData _ => reply_error SPINNAKER_ERR_ERROR
  | _ => sdk_ok t c

/-- As `sdk_ok`, but `spinCameraRelease` fails. -/
def sdk_camera_release_fails : Sdk := fun t c =>
  match c with
  | .spinCameraRelease _ => reply_error SPINNAKER_ERR_ERROR
  | _ => sdk_ok t c

/-- As `sdk_ok`, but the conversion `spinImageConvert` fails. -/
def sdk_convert_fails : Sdk := fun t c =>
  match c with
  | .spinImageConvert _ _ => reply_error SPINNAKER_ERR_ERROR
  | _ => sdk_ok t c

/-- The session `src` with the base-class property `num-buffers` set. -/
def with_num_buffers (src : GstSpinnakerSrc) (num_buffers : Int) : GstSpinnakerSrc :=
  { src with parent := { src.parent with num_buffers := num_buffers } }

/-- The session `src` with the base-class property `do-timestamp` set to `b`. -/
def with_do_timestamp (src : GstSpinnakerSrc) (b : Bool) : GstSpinnakerSrc :=
  { src with parent := { src.parent with do_timestamp := b } }

/-- The session `src` with another frame rate. -/
def with_framerate (src : GstSpinnakerSrc) (framerate : Nat) : GstSpinnakerSrc :=
  { src with framerate := framerate }

/-- A started session: the new instance after `gst_spinnaker_src_start`
succeeded on an SDK with one healthy camera. -/
def started_instance : GstSpinnakerSrc :=
  (gst_spinnaker_src_start sdk_checks_handles fresh_instance []).src

/-! ## Lemmas on the control flow -/

/-- What holds of the continuation of an SDK call holds of the call. -/
theorem spin_ind {β : Type} (P : β → Prop) (sdk : Sdk) (tr : Trace) (c : SdkCall)
    (k : Reply → Trace → β) (h : P (k (sdk tr c) (tr ++ [c]))) : P (spin sdk tr c k) :=
  h

/-- What holds at the label `fail` and, after a successful call, of the rest
of the function, holds of the checked call. -/
theorem EXEANDCHECK_ind {β : Type} (P : β → Prop) (sdk : Sdk) (tr : Trace) (c : SdkCall)
    (fail k : Reply → Trace → β) (hf : P (fail (sdk tr c) (tr ++ [c])))
    (hk : (sdk tr c).err = SPINNAKER_ERR_SUCCESS → P (k (sdk tr c) (tr ++ [c]))) :
    P (EXEANDCHECK sdk tr c fail k) := by
  unfold EXEANDCHECK spin
  dsimp only
  split_ifs with h
  · exact hf
  · exact hk (by simpa [eq_comm] using h)

/-! ## The row copy -/

theorem copy_image_calls_length (h d s : Int) :
    (copy_image_calls h d s).length = h.toNat := by
  simp [copy_image_calls]

theorem copy_image_calls_get (h d s : Int) (i : Nat) (hi : i < h.toNat) :
    (copy_image_calls h d s)[i]? = some ⟨i * d, i * s, s.toNat⟩ := by
  simp [copy_image_calls, List.getElem?_map, List.getElem?_range hi]

theorem copy_image_data_zero (d s : Int) (dst data : Mem) :
    copy_image_data ((0 : Nat) : Int) d s dst data = dst := by
  simp [copy_image_data, copy_image_calls]

theorem copy_image_data_succ (k : Nat) (d s : Int) (dst data : Mem) :
    copy_image_data ((k + 1 : Nat) : Int) d s dst data
      = memcpy (copy_image_data (k : Int) d s dst data) (k * d) data (k * s) s.toNat := by
  simp [copy_image_data, copy_image_calls, List.range_succ, List.foldl_append]

/-- Rows lie one after the other: row `i` ends before a later row `k` starts. -/
theorem row_below (i k d : Nat) (hik : i < k) : ((i : Int) + 1) * d ≤ (k : Int) * d := by
  have h1 : i + 1 ≤ k := hik
  have h2 : (i + 1) * d ≤ k * d := Nat.mul_le_mul_right d h1
  exact_mod_cast h2

/-- An offset that no row copy covers keeps its byte. -/
theorem copy_image_data_outside (k s d : Nat) (dst data : Mem) (a : Int)
    (ha : ∀ i : Nat, i < k → ¬ ((i : Int) * d ≤ a ∧ a < (i : Int) * d + s)) :
    copy_image_data (k : Int) d s dst data a = dst a := by
  induction k with
  | zero => rw [copy_image_data_zero]
  | succ k ih =>
    rw [copy_image_data_succ]
    have hk := ha k (Nat.lt_succ_self k)
    simp only [memcpy, Int.toNat_ofNat]
    rw [if_neg hk]
    exact ih fun i hi => ha i (Nat.lt_succ_of_lt hi)

/-- Byte `j` of row `i` holds the source byte once the loop has passed row `i`. -/
theorem copy_image_data_inside (k s d : Nat) (hsd : s ≤ d) (dst data : Mem) (i j : Nat)
    (hi : i < k) (hj : j < s) :
    copy_image_data (k : Int) d s dst data ((i : Int) * d + j) = data ((i : Int) * s + j) := by
  induction k with
  | zero => omega
  | succ k ih =>
    rw [copy_image_data_succ]
    simp only [memcpy, Int.toNat_ofNat]
    rcases Nat.lt_succ_iff_lt_or_eq.mp hi with hlt | heq
    · have hb := row_below i k d hlt
      have hmiss :
          ¬ ((k : Int) * d ≤ (i : Int) * d + j ∧ (i : Int) * d + j < (k : Int) * d + s) := by
        intro ⟨h1, _⟩
        have : ((i : Int) + 1) * d = (i : Int) * d + d := by ring
        omega
      rw [if_neg hmiss]
      exact ih hlt
    · subst heq
      have hhit :
          ((i : Int) * d ≤ (i : Int) * d + j ∧ (i : Int) * d + j < (i : Int) * d + s) := by
        constructor <;> omega
      rw [if_pos hhit]
      congr 1
      ring

/-- The bytes between the end of a copied row and the next row are not written. -/
theorem copy_image_data_padding (k s d : Nat) (dst data : Mem) (i j : Nat)
    (hi : i < k) (hsj : s ≤ j) (hjd : j < d) :
    copy_image_data (k : Int) d s dst data ((i : Int) * d + j) = dst ((i : Int) * d + j) := by
  apply copy_image_data_outside
  intro r hr ⟨h1, h2⟩
  rcases Nat.lt_trichotomy r i with hlt | heq | hgt
  · have hb := row_below r i d hlt
    have : ((r : Int) + 1) * d = (r : Int) * d + d := by ring
    omega
  · subst heq; omega
  · have hb := row_below i r d hgt
    have : ((i : Int) + 1) * d = (i : Int) * d + d := by ring
    omega

/-- C1 (counterexample): with `nPitch = 3` and `gst_stride = 2` the only row of
a one-row image is copied by a `memcpy` of 3 bytes, not of `min 3 2 = 2`
bytes, and the destination byte at offset 2, which lies behind the two bytes
of that row, is overwritten with the source byte. -/
theorem copy_length_not_min :
    (copy_image_calls 1 2 3)[0]? = some ⟨0, 0, 3⟩ ∧
    (copy_image_calls 1 2 3)[0]? ≠ some ⟨0, 0, min 3 2⟩ ∧
    copy_image_data 1 2 3 (fun _ => 0) (fun _ => 7) 2 = 7 := by
  decide

/-- C1 (amended): the copy loop of `gst_spinnaker_src_create` issues one
`memcpy` per row `i` in `[0, height)`, of exactly `nPitch` bytes, from source
offset `i * nPitch` to destination offset `i * gst_stride`; that count is
`min nPitch gst_stride` whenever `nPitch ≤ gst_stride`, and `init_properties`
sets `gst_stride` to `nPitch`. -/
theorem copy_rows_pitch_bytes (height nPitch gst_stride : Nat) :
    (copy_image_calls height gst_stride nPitch).length = height ∧
    (∀ i : Nat, i < height →
      (copy_image_calls height gst_stride nPitch)[i]?
        = some ⟨(i : Int) * gst_stride, (i : Int) * nPitch, nPitch⟩) ∧
    (nPitch ≤ gst_stride → ∀ i : Nat, i < height →
      (copy_image_calls height gst_stride nPitch)[i]?
        = some ⟨(i : Int) * gst_stride, (i : Int) * nPitch, min nPitch gst_stride⟩) ∧
    (∀ src : GstSpinnakerSrc,
      (init_properties src).gst_stride = (init_properties src).nPitch) := by
  refine ⟨?_, ?_, ?_, ?_⟩
  · simp [copy_image_calls_length]
  · intro i hi
    rw [copy_image_calls_get _ _ _ i (by simpa using hi)]
    simp
  · intro hle i hi
    rw [copy_image_calls_get _ _ _ i (by simpa using hi)]
    simp [Nat.min_eq_left hle]
  · intro src
    rfl

/-- C1 (witness): ten rows of 100 bytes into a stride of 128 bytes; row 3 is
one `memcpy` of `min 100 128` bytes from offset 300 to offset 384. -/
theorem copy_rows_pitch_bytes_witness :
    (100 ≤ 128 ∧ 3 < 10) ∧
    (copy_image_calls (10 : Nat) (128 : Nat) (100 : Nat))[3]?
      = some ⟨((3 : Nat) : Int) * (128 : Nat), ((3 : Nat) : Int) * (100 : Nat),
          min 100 128⟩ :=
  ⟨by decide, (copy_rows_pitch_bytes 10 100 128).2.2.1 (by decide) 3 (by decide)⟩

/-- C2: with a source row of `s` bytes and a destination stride `d ≥ s`, after
the copy loop of `gst_spinnaker_src_create` over `h` rows every row `i < h`
was copied by one `memcpy` of `s` bytes to offset `i * d`, the destination
holds the `s` source bytes of row `i` at offsets `[i*d, i*d + s)`, and every
destination byte at offsets `[i*d + s, (i+1)*d)` keeps its prior value. -/
theorem copy_frame_effect (h s d : Nat) (hsd : s ≤ d) (dst data : Mem) (i : Nat)
    (hi : i < h) :
    (copy_image_calls h d s)[i]? = some ⟨(i : Int) * d, (i : Int) * s, s⟩ ∧
    (∀ j : Nat, j < s →
      copy_image_data h d s dst data ((i : Int) * d + j) = data ((i : Int) * s + j)) ∧
    (∀ j : Nat, s ≤ j → j < d →
      copy_image_data h d s dst data ((i : Int) * d + j) = dst ((i : Int) * d + j)) := by
  refine ⟨?_, ?_, ?_⟩
  · rw [copy_image_calls_get _ _ _ i (by simpa using hi)]
    simp
  · intro j hj
    exact copy_image_data_inside h s d hsd dst data i j hi hj
  · intro j hsj hjd
    exact copy_image_data_padding h s d dst data i j hi hsj hjd

/-- C2 (witness): 10 rows, source rows of 100 bytes, destination stride 128,
a destination filled with 170 and a source whose byte at offset `a` is
`a mod 251`: row 3 is one copy of 100 bytes to offset 384, its byte 5 is the
source byte at offset 305, and its byte 100, the first of the 28 padding
bytes, is still 170; the ten copies have 100 bytes each and go to the offsets
0, 128, 256, ... -/
theorem copy_frame_effect_witness :
    (100 ≤ 128 ∧ 3 < 10) ∧
    (copy_image_calls (10 : Nat) (128 : Nat) (100 : Nat)).map (fun c => (c.dst_off, c.n))
      = [(0, 100), (128, 100), (256, 100), (384, 100), (512, 100), (640, 100), (768, 100),
         (896, 100), (1024, 100), (1152, 100)] ∧
    (copy_image_calls (10 : Nat) (128 : Nat) (100 : Nat))[3]?
      = some ⟨((3 : Nat) : Int) * (128 : Nat), ((3 : Nat) : Int) * (100 : Nat), 100⟩ ∧
    copy_image_data (10 : Nat) (128 : Nat) (100 : Nat) (fun _ => 170)
        (fun a => (a % 251).toNat) (((3 : Nat) : Int) * (128 : Nat) + (5 : Nat))
      = (fun a : Int => (a % 251).toNat) (((3 : Nat) : Int) * (100 : Nat) + (5 : Nat)) ∧
    copy_image_data (10 : Nat) (128 : Nat) (100 : Nat) (fun _ => 170)
        (fun a => (a % 251).toNat) (((3 : Nat) : Int) * (128 : Nat) + (100 : Nat))
      = (fun _ : Int => 170) (((3 : Nat) : Int) * (128 : Nat) + (100 : Nat)) :=
  have w := copy_frame_effect 10 100 128 (by decide) (fun _ => 170)
    (fun a => (a % 251).toNat) 3 (by decide)
  ⟨by decide, by decide, w.1, w.2.1 5 (by decide), w.2.2 100 (by decide) (by decide)⟩

/-! ## Frame production -/

/-- One call of `gst_spinnaker_src_create`: every way out of the function
satisfies `create_post`. -/
theorem create_step (sdk : Sdk) (content : Mem) (src : GstSpinnakerSrc) (tr : Trace) :
    create_post sdk content src (gst_spinnaker_src_create sdk content src tr) := by
  unfold gst_spinnaker_src_create
  dsimp only
  repeat first
    | refine EXEANDCHECK_ind (create_post sdk content src) _ _ _ _ _
        (Or.inl ⟨rfl, rfl⟩) (fun _ => ?_)
      beta_reduce
    | refine spin_ind (create_post sdk content src) _ _ _ _ ?_
      beta_reduce
  split_ifs with hlim hts
  all_goals
    refine Or.inr ⟨by simp, rfl, _, rfl, rfl, rfl, rfl, ?_, ?_, rfl, _, _, rfl⟩
  all_goals simp_all [gst_buffer_new_and_alloc]

/-- With an SDK that never fails a call stamps a buffer, and returns
end-of-stream exactly when the limit is set and reached. -/
theorem create_all_ok (sdk : Sdk) (hsdk : ∀ t c, (sdk t c).err = SPINNAKER_ERR_SUCCESS)
    (content : Mem) (src : GstSpinnakerSrc) (tr : Trace) :
    (gst_spinnaker_src_create sdk content src tr).src = stamped src ∧
    (gst_spinnaker_src_create sdk content src tr).ret
      = if src.parent.num_buffers > 0 ∧ ((src.n_frames + 1 : Nat) : Int) ≥ src.parent.num_buffers
        then .GST_FLOW_EOS else .GST_FLOW_OK := by
  simp only [gst_spinnaker_src_create, EXEANDCHECK, spin, hsdk, stamped]
  split_ifs <;> simp_all

/-- The first call issued after the history `tr`. -/
theorem take_first_call (tr : Trace) (c : SdkCall) (rest : List SdkCall) :
    (tr ++ c :: rest).take (tr.length + 1) = tr ++ [c] := by
  rw [List.take_append]
  simp

/-- The first SDK call of `gst_spinnaker_src_create` is the camera lookup. -/
theorem create_first_call (sdk : Sdk) (content : Mem) (src : GstSpinnakerSrc) (tr : Trace) :
    (gst_spinnaker_src_create sdk content src tr).trace.take (tr.length + 1)
      = tr ++ [.spinCameraListGet src.hCameraList src.cameraID] := by
  unfold gst_spinnaker_src_create
  dsimp only
  repeat first
    | refine EXEANDCHECK_ind (fun out : CreateOutcome => out.trace.take (tr.length + 1)
          = tr ++ [.spinCameraListGet src.hCameraList src.cameraID]) _ _ _ _ _
        ?_ (fun _ => ?_)
      rotate_left
      beta_reduce
    | refine spin_ind (fun out : CreateOutcome => out.trace.take (tr.length + 1)
          = tr ++ [.spinCameraListGet src.hCameraList src.cameraID]) _ _ _ _ ?_
      beta_reduce
  · split_ifs <;> simp [take_first_call]
  all_goals simp [take_first_call]

/-- When the camera lookup fails, `gst_spinnaker_src_create` is over. -/
theorem create_lookup_fails (sdk : Sdk) (content : Mem) (src : GstSpinnakerSrc) (tr : Trace)
    (h : (sdk tr (.spinCameraListGet src.hCameraList src.cameraID)).err
      ≠ SPINNAKER_ERR_SUCCESS) :
    (gst_spinnaker_src_create sdk content src tr).ret = .GST_FLOW_ERROR ∧
    (gst_spinnaker_src_create sdk content src tr).src = src ∧
    (gst_spinnaker_src_create sdk content src tr).buf.isNone = true ∧
    (gst_spinnaker_src_create sdk content src tr).trace
      = tr ++ [.spinCameraListGet src.hCameraList src.cameraID] := by
  have h2 : SPINNAKER_ERR_SUCCESS ≠ (sdk tr (.spinCameraListGet src.hCameraList src.cameraID)).err :=
    fun e => h e.symm
  simp only [gst_spinnaker_src_create, EXEANDCHECK, spin, if_pos h2]
  simp

theorem produced_cons_err (o : CreateOutcome) (outs : List CreateOutcome)
    (h : o.ret = .GST_FLOW_ERROR) : produced (o :: outs) = produced outs := by
  simp [produced, List.filter_cons, h]

theorem produced_cons_ok (o : CreateOutcome) (outs : List CreateOutcome)
    (h : o.ret ≠ .GST_FLOW_ERROR) : produced (o :: outs) = o :: produced outs := by
  simp [produced, List.filter_cons, h]

/-- Frame number `i` of a run of calls, counted over the calls that produced a
frame: its counters, times and stamps in terms of the session the run began
with. -/
theorem produced_get (sdk : Sdk) (content : Nat → Mem) (n : Nat) :
    ∀ (src : GstSpinnakerSrc) (tr : Trace) (k i : Nat) (o : CreateOutcome),
      (produced (create_calls sdk content n src tr k))[i]? = some o →
      o.src.n_frames = src.n_frames + (i + 1) ∧
      o.src.last_frame_time
        = src.last_frame_time + (i + 1) * (1000000000 / src.framerate) ∧
      o.src.duration = 1000000000 / src.framerate ∧
      ∃ buf, o.buf = some buf ∧
        buf.offset = some (src.n_frames + i) ∧
        buf.offset_end = some (src.n_frames + i + 1) ∧
        buf.duration = some (1000000000 / src.framerate) ∧
        buf.pts = (if src.parent.do_timestamp then none
          else some (src.last_frame_time + (i + 1) * (1000000000 / src.framerate))) ∧
        buf.dts = (if src.parent.do_timestamp then none
          else some (src.last_frame_time + (i + 1) * (1000000000 / src.framerate))) := by
  induction n with
  | zero => intro src tr k i o h; simp [create_calls, produced] at h
  | succ n ih =>
    intro src tr k i o h
    rw [create_calls] at h
    rcases create_step sdk (content k) src tr with
      ⟨herr, hsrc⟩ | ⟨hok, hsrc, buf, hb, h1, h2, h3, h4, h5, _⟩
    · rw [produced_cons_err _ _ herr, hsrc] at h
      exact ih src _ _ i o h
    · rw [produced_cons_ok _ _ hok, hsrc] at h
      cases i with
      | zero =>
        simp only [List.getElem?_cons_zero, Option.some.injEq] at h
        subst h
        exact ⟨by simp [hsrc, stamped], by simp [hsrc, stamped], by simp [hsrc, stamped],
          buf, hb, by simpa using h1, by simpa using h2, h3, by simpa using h4,
          by simpa using h5⟩
      | succ i =>
        simp only [List.getElem?_cons_succ] at h
        have := ih (stamped src) _ _ i o h
        simp only [stamped] at this
        obtain ⟨a1, a2, a3, b, hb', c1, c2, c3, c4, c5⟩ := this
        have e : src.last_frame_time + 1000000000 / src.framerate
            + (i + 1) * (1000000000 / src.framerate)
            = src.last_frame_time + ((i + 1 : Nat) + 1) * (1000000000 / src.framerate) := by
          ring
        rw [e] at a2 c4 c5
        refine ⟨by omega, by simpa using a2, a3, b, hb', ?_, ?_, c3, by simpa using c4,
          by simpa using c5⟩
        · rw [c1]; congr 1; omega
        · rw [c2]; congr 1; omega

/-- A list whose entry `i` is mapped to `f i` is the image of its index range. -/
theorem map_eq_range_map {α β : Type} (l : List α) (g : α → β) (f : Nat → β)
    (h : ∀ i o, l[i]? = some o → g o = f i) :
    l.map g = (List.range l.length).map f := by
  apply List.ext_getElem?
  intro i
  rcases Nat.lt_or_ge i l.length with hi | hi
  · rw [List.getElem?_map, List.getElem?_map, List.getElem?_range hi,
      List.getElem?_eq_getElem hi]
    simp only [Option.map_some']
    rw [h i _ (List.getElem?_eq_getElem hi)]
  · rw [List.getElem?_eq_none (by simpa using hi), List.getElem?_eq_none (by simpa using hi)]

theorem stamped_parent (src : GstSpinnakerSrc) : (stamped src).parent = src.parent := rfl

/-- Without a frame limit no call of a run on a healthy SDK ends the stream. -/
theorem calls_unlimited (sdk : Sdk) (hsdk : ∀ t c, (sdk t c).err = SPINNAKER_ERR_SUCCESS)
    (content : Nat → Mem) (n : Nat) :
    ∀ (src : GstSpinnakerSrc) (tr : Trace) (k : Nat), src.parent.num_buffers = 0 →
      ∀ o ∈ create_calls sdk content n src tr k, o.ret = .GST_FLOW_OK := by
  induction n with
  | zero => intro src tr k _ o ho; simp [create_calls] at ho
  | succ n ih =>
    intro src tr k hL o ho
    obtain ⟨hsrc, hret⟩ := create_all_ok sdk hsdk (content k) src tr
    rw [create_calls] at ho
    rcases List.mem_cons.mp ho with rfl | hmem
    · rw [hret, hL]; simp
    · rw [hsrc] at hmem
      exact ih (stamped src) _ _ (by rw [stamped_parent]; exact hL) o hmem

/-- With `n + 1` frames left before the limit `L`, the next `n` calls return
OK and the one after them returns end-of-stream. -/
theorem calls_up_to_limit (sdk : Sdk) (hsdk : ∀ t c, (sdk t c).err = SPINNAKER_ERR_SUCCESS)
    (content : Nat → Mem) (L : Nat) (n : Nat) :
    ∀ (src : GstSpinnakerSrc) (tr : Trace) (k : Nat), src.parent.num_buffers = L →
      src.n_frames + n + 1 = L →
      (create_calls sdk content (n + 1) src tr k).map (fun o => o.ret)
        = List.replicate n .GST_FLOW_OK ++ [.GST_FLOW_EOS] := by
  induction n with
  | zero =>
    intro src tr k hL hn
    obtain ⟨hsrc, hret⟩ := create_all_ok sdk hsdk (content k) src tr
    simp only [create_calls, List.map_cons, List.map_nil, List.replicate_zero, List.nil_append]
    rw [hret, hL, if_pos]
    constructor <;> omega
  | succ n ih =>
    intro src tr k hL hn
    obtain ⟨hsrc, hret⟩ := create_all_ok sdk hsdk (content k) src tr
    rw [create_calls, List.map_cons, hsrc, ih (stamped src) _ _ (by rw [stamped_parent]; exact hL)
      (by simp only [stamped]; omega), hret, hL, if_neg, List.replicate_succ, List.cons_append]
    intro ⟨_, h2⟩
    omega

/-- C3: starting from a session with `n_frames = 0` (as `gst_spinnaker_src_init`
and `gst_spinnaker_src_reset` leave it), over any run of calls of
`gst_spinnaker_src_create` and any SDK behaviour, the calls that produce a
frame stamp the offsets `0, 1, 2, ...` in order, frame `k` with offset `k` and
offset-end `k + 1`; the calls that fail in between are not counted, so they
consume no number. -/
theorem create_offsets_gapless (sdk : Sdk) (content : Nat → Mem) (n : Nat)
    (src : GstSpinnakerSrc) (tr : Trace) (h0 : src.n_frames = 0) :
    ((produced (create_calls sdk content n src tr 0)).map fun o =>
        (o.buf.bind GstBuffer.offset, o.buf.bind GstBuffer.offset_end))
      = (List.range (produced (create_calls sdk content n src tr 0)).length).map
          fun k => (some k, some (k + 1)) := by
  apply map_eq_range_map
  intro i o h
  obtain ⟨_, _, _, buf, hb, h1, h2, _⟩ := produced_get sdk content n src tr 0 i o h
  simp [hb, h1, h2, h0]

/-- C3 (witness): three calls on the new instance, the second of which fails
in `spinCameraGetNextImage`: the two frames carry the offsets 0 and 1. -/
theorem create_offsets_gapless_witness :
    fresh_instance.n_frames = 0 ∧
    (create_calls sdk_timeout_once (fun _ _ => 0) 3 fresh_instance [] 0).map (fun o => o.ret)
      = [.GST_FLOW_OK, .GST_FLOW_ERROR, .GST_FLOW_OK] ∧
    (produced (create_calls sdk_timeout_once (fun _ _ => 0) 3 fresh_instance [] 0)).length = 2 ∧
    ((produced (create_calls sdk_timeout_once (fun _ _ => 0) 3 fresh_instance [] 0)).map fun o =>
        (o.buf.bind GstBuffer.offset, o.buf.bind GstBuffer.offset_end))
      = (List.range
          (produced (create_calls sdk_timeout_once (fun _ _ => 0) 3 fresh_instance [] 0)).length).map
          fun k => (some k, some (k + 1)) :=
  ⟨by decide, by decide, by decide,
    create_offsets_gapless sdk_timeout_once (fun _ _ => 0) 3 fresh_instance [] (by decide)⟩

/-- C4: starting from `n_frames = 0` with an SDK whose calls all succeed, if
the limit `num_buffers` is `L > 0` then of the first `L` calls of
`gst_spinnaker_src_create` the calls `1 .. L-1` return `GST_FLOW_OK` and call
`L` is the first to return `GST_FLOW_EOS`; if `num_buffers` is 0 then no call
of any run returns `GST_FLOW_EOS`. -/
theorem create_frame_limit (sdk : Sdk) (hsdk : ∀ t c, (sdk t c).err = SPINNAKER_ERR_SUCCESS)
    (content : Nat → Mem) (src : GstSpinnakerSrc) (tr : Trace) (h0 : src.n_frames = 0) :
    (∀ L : Nat, 0 < L → src.parent.num_buffers = L →
      (create_calls sdk content L src tr 0).map (fun o => o.ret)
        = List.replicate (L - 1) .GST_FLOW_OK ++ [.GST_FLOW_EOS]) ∧
    (src.parent.num_buffers = 0 →
      ∀ n : Nat, ∀ o ∈ create_calls sdk content n src tr 0, o.ret ≠ .GST_FLOW_EOS) := by
  constructor
  · intro L hL hnb
    obtain ⟨m, rfl⟩ : ∃ m, L = m + 1 := ⟨L - 1, by omega⟩
    simpa using calls_up_to_limit sdk hsdk content (m + 1) m src tr 0 hnb (by omega)
  · intro hnb n o ho
    rw [calls_unlimited sdk hsdk content n src tr 0 hnb o ho]
    decide

/-- C4 (witness): the new instance with `num-buffers = 3` on the healthy SDK:
the three calls return OK, OK, EOS. -/
theorem create_frame_limit_witness :
    ((∀ t c, (sdk_ok t c).err = SPINNAKER_ERR_SUCCESS) ∧
      (with_num_buffers fresh_instance 3).n_frames = 0 ∧ 0 < 3 ∧
      (with_num_buffers fresh_instance 3).parent.num_buffers = (3 : Nat)) ∧
    (create_calls sdk_ok (fun _ _ => 0) 3 (with_num_buffers fresh_instance 3) [] 0).map
        (fun o => o.ret)
      = List.replicate (3 - 1) .GST_FLOW_OK ++ [.GST_FLOW_EOS] :=
  have hok : ∀ t c, (sdk_ok t c).err = SPINNAKER_ERR_SUCCESS := by
    intro t c
    unfold sdk_ok
    split <;> rfl
  ⟨⟨hok, by decide, by decide, by decide⟩,
    (create_frame_limit sdk_ok hok (fun _ _ => 0)
      (with_num_buffers fresh_instance 3) [] (by decide)).1 3 (by decide) (by decide)⟩

/-- C5 (counterexample): the new instance with the frame rate 25 and the
base-class property `do-timestamp` set: three calls of
`gst_spinnaker_src_create` each produce a frame and advance the cumulative
frame time by 40,000,000 ns, but none of the three buffers gets a `pts` or a
`dts` from the plugin: the cumulative frame time is not used as the
presentation timestamp, and the timestamps of successive frames do not differ
by 40,000,000 ns. -/
theorem create_pts_unset_when_base_stamps :
    (with_do_timestamp (with_framerate fresh_instance 25) true).framerate = 25 ∧
    (create_calls sdk_ok (fun _ _ => 0) 3
        (with_do_timestamp (with_framerate fresh_instance 25) true) [] 0).map
        (fun o => o.ret) = [.GST_FLOW_OK, .GST_FLOW_OK, .GST_FLOW_OK] ∧
    (create_calls sdk_ok (fun _ _ => 0) 3
        (with_do_timestamp (with_framerate fresh_instance 25) true) [] 0).map
        (fun o => (o.src.last_frame_time, o.buf.bind GstBuffer.pts, o.buf.bind GstBuffer.dts))
      = [(40000000, none, none), (80000000, none, none), (120000000, none, none)] := by
  decide

/-- C5 (amended): over any run of calls of `gst_spinnaker_src_create`, every
call that produces a frame sets `duration` (of the session and of the buffer)
to `1000000000 / framerate` and adds that amount to `last_frame_time`.  When
the base class does not stamp the buffers itself (`do_timestamp` is off) this
cumulative time is the `pts` and the `dts` of the buffer, so frame `k` of the
run carries `last_frame_time + (k + 1) * (1000000000 / framerate)` and
successive frames differ by exactly that step; when `do_timestamp` is on the
plugin leaves `pts` and `dts` unset.  With `framerate = 25` the step is
exactly 40,000,000 ns. -/
theorem create_timestamps (sdk : Sdk) (content : Nat → Mem) (n : Nat)
    (src : GstSpinnakerSrc) (tr : Trace) :
    (0 < src.framerate →
      ((produced (create_calls sdk content n src tr 0)).map fun o =>
          (o.src.duration, o.buf.bind GstBuffer.duration, o.src.last_frame_time,
            o.buf.bind GstBuffer.pts, o.buf.bind GstBuffer.dts))
        = (List.range (produced (create_calls sdk content n src tr 0)).length).map fun k =>
          (1000000000 / src.framerate, some (1000000000 / src.framerate),
            src.last_frame_time + (k + 1) * (1000000000 / src.framerate),
            if src.parent.do_timestamp then none
              else some (src.last_frame_time + (k + 1) * (1000000000 / src.framerate)),
            if src.parent.do_timestamp then none
              else some (src.last_frame_time + (k + 1) * (1000000000 / src.framerate)))) ∧
    (src.framerate = 25 →
      ((produced (create_calls sdk content n src tr 0)).map fun o =>
          (o.src.duration, o.buf.bind GstBuffer.duration, o.src.last_frame_time,
            o.buf.bind GstBuffer.pts, o.buf.bind GstBuffer.dts))
        = (List.range (produced (create_calls sdk content n src tr 0)).length).map fun k =>
          (40000000, some 40000000,
            src.last_frame_time + (k + 1) * 40000000,
            if src.parent.do_timestamp then none
              else some (src.last_frame_time + (k + 1) * 40000000),
            if src.parent.do_timestamp then none
              else some (src.last_frame_time + (k + 1) * 40000000))) := by
  have key : ((produced (create_calls sdk content n src tr 0)).map fun o =>
          (o.src.duration, o.buf.bind GstBuffer.duration, o.src.last_frame_time,
            o.buf.bind GstBuffer.pts, o.buf.bind GstBuffer.dts))
        = (List.range (produced (create_calls sdk content n src tr 0)).length).map fun k =>
          (1000000000 / src.framerate, some (1000000000 / src.framerate),
            src.last_frame_time + (k + 1) * (1000000000 / src.framerate),
            if src.parent.do_timestamp then none
              else some (src.last_frame_time + (k + 1) * (1000000000 / src.framerate)),
            if src.parent.do_timestamp then none
              else some (src.last_frame_time + (k + 1) * (1000000000 / src.framerate))) := by
    apply map_eq_range_map
    intro i o h
    obtain ⟨_, a2, a3, buf, hb, _, _, c3, c4, c5⟩ := produced_get sdk content n src tr 0 i o h
    simp [hb, a2, a3, c3, c4, c5]
  refine ⟨fun _ => key, fun h25 => ?_⟩
  rw [key, h25]

/-- C5 (witness): the new instance with the frame rate set to 25, three calls
of which the second fails: the two frames carry 40,000,000 and 80,000,000 ns
as `pts` and `dts`, each with a duration of 40,000,000 ns. -/
theorem create_timestamps_witness :
    (with_framerate fresh_instance 25).framerate = 25 ∧
    (List.range (produced (create_calls sdk_timeout_once (fun _ _ => 0) 3
          (with_framerate fresh_instance 25) [] 0)).length).map (fun k =>
        (40000000, some 40000000,
          (with_framerate fresh_instance 25).last_frame_time + (k + 1) * 40000000,
          if (with_framerate fresh_instance 25).parent.do_timestamp then none
            else some ((with_framerate fresh_instance 25).last_frame_time + (k + 1) * 40000000),
          if (with_framerate fresh_instance 25).parent.do_timestamp then none
            else some ((with_framerate fresh_instance 25).last_frame_time + (k + 1) * 40000000)))
      = [(40000000, some 40000000, 40000000, some 40000000, some 40000000),
         (40000000, some 40000000, 80000000, some 80000000, some 80000000)] ∧
    ((produced (create_calls sdk_timeout_once (fun _ _ => 0) 3
          (with_framerate fresh_instance 25) [] 0)).map fun o =>
        (o.src.duration, o.buf.bind GstBuffer.duration, o.src.last_frame_time,
          o.buf.bind GstBuffer.pts, o.buf.bind GstBuffer.dts))
      = (List.range (produced (create_calls sdk_timeout_once (fun _ _ => 0) 3
          (with_framerate fresh_instance 25) [] 0)).length).map fun k =>
        (40000000, some 40000000,
          (with_framerate fresh_instance 25).last_frame_time + (k + 1) * 40000000,
          if (with_framerate fresh_instance 25).parent.do_timestamp then none
            else some ((with_framerate fresh_instance 25).last_frame_time + (k + 1) * 40000000),
          if (with_framerate fresh_instance 25).parent.do_timestamp then none
            else some ((with_framerate fresh_instance 25).last_frame_time + (k + 1) * 40000000)) :=
  ⟨by decide, by decide,
    (create_timestamps sdk_timeout_once (fun _ _ => 0) 3
      (with_framerate fresh_instance 25) []).2 (by decide)⟩

/-! ## Start -/

/-- C6 (the code at the failing inputs): when `spinCameraGetNodeMap` fails,
`gst_spinnaker_src_start` returns the SDK error code -1001, which is not
`FALSE`, and its last SDK call is the failed one: the camera list is neither
cleared nor destroyed and the system instance is not released.  The same
happens with the code -1005 when `ConfigureCustomImageSettings` meets a node
that is not writable.  A failure of the call just before, `spinCameraInit`,
does go through the label `fail`: the result is `FALSE` after the list was
cleared and destroyed and the system released. -/
theorem start_returns_error_code_without_unwinding :
    ((gst_spinnaker_src_start sdk_nodemap_fails fresh_instance []).ret = SPINNAKER_ERR_ERROR ∧
      (gst_spinnaker_src_start sdk_nodemap_fails fresh_instance []).ret ≠ FALSE ∧
      (gst_spinnaker_src_start sdk_nodemap_fails fresh_instance []).src.cameraPresent = false ∧
      (gst_spinnaker_src_start sdk_nodemap_fails fresh_instance []).trace
        = [.spinSystemGetInstance, .spinCameraListCreateEmpty,
           .spinSystemGetCameras (some 1) (some 2), .spinCameraListGetSize (some 2),
           .spinCameraListGet (some 2) 0, .spinCameraInit (some 3),
           .spinCameraGetNodeMap (some 3)]) ∧
    ((gst_spinnaker_src_start sdk_read_only fresh_instance []).ret
        = SPINNAKER_ERR_ACCESS_DENIED ∧
      (gst_spinnaker_src_start sdk_read_only fresh_instance []).ret ≠ FALSE ∧
      (gst_spinnaker_src_start sdk_read_only fresh_instance []).trace.getLast?
        = some (.spinNodeIsWritable (some 10)) ∧
      SdkCall.spinCameraListClear (some 2)
        ∉ (gst_spinnaker_src_start sdk_read_only fresh_instance []).trace ∧
      SdkCall.spinCameraListDestroy (some 2)
        ∉ (gst_spinnaker_src_start sdk_read_only fresh_instance []).trace ∧
      SdkCall.spinSystemReleaseInstance (some 1)
        ∉ (gst_spinnaker_src_start sdk_read_only fresh_instance []).trace) ∧
    ((gst_spinnaker_src_start sdk_init_fails fresh_instance []).ret = FALSE ∧
      (gst_spinnaker_src_start sdk_init_fails fresh_instance []).trace
        = [.spinSystemGetInstance, .spinCameraListCreateEmpty,
           .spinSystemGetCameras (some 1) (some 2), .spinCameraListGetSize (some 2),
           .spinCameraListGet (some 2) 0, .spinCameraInit (some 3),
           .spinCameraListClear (some 2), .spinCameraListDestroy (some 2),
           .spinSystemReleaseInstance (some 1)]) := by
  decide

/-- C7 (the code at the failing input): when the enumeration finds no camera
and every SDK call succeeds, `gst_spinnaker_src_start` returns `FALSE` without
selecting a camera, but it clears and destroys the one camera list and
releases the one system instance twice: once in the branch `numCameras == 0`
and once more after the label `fail`. -/
theorem start_without_camera_releases_twice :
    (gst_spinnaker_src_start sdk_no_camera fresh_instance []).ret = FALSE ∧
    (gst_spinnaker_src_start sdk_no_camera fresh_instance []).trace
      = [.spinSystemGetInstance, .spinCameraListCreateEmpty,
         .spinSystemGetCameras (some 1) (some 2), .spinCameraListGetSize (some 2),
         .spinCameraListClear (some 2), .spinCameraListDestroy (some 2),
         .spinSystemReleaseInstance (some 1),
         .spinCameraListClear (some 2), .spinCameraListDestroy (some 2),
         .spinSystemReleaseInstance (some 1)] ∧
    (gst_spinnaker_src_start sdk_no_camera fresh_instance []).trace.count
      .spinSystemGetInstance = 1 ∧
    (gst_spinnaker_src_start sdk_no_camera fresh_instance []).trace.count
      .spinCameraListCreateEmpty = 1 ∧
    (gst_spinnaker_src_start sdk_no_camera fresh_instance []).trace.count
      (.spinCameraListDestroy (some 2)) = 2 ∧
    (gst_spinnaker_src_start sdk_no_camera fresh_instance []).trace.count
      (.spinSystemReleaseInstance (some 1)) = 2 := by
  decide

/-! ## Stop -/

/-- The function `gst_spinnaker_src_stop` is its seven calls under
`EXEANDCHECK`, with the reset only after the last one succeeded. -/
theorem stop_eq_checked_calls (sdk : Sdk) (src : GstSpinnakerSrc) (tr : Trace) :
    gst_spinnaker_src_stop sdk src tr =
      { ret := TRUE
        src := if (checked_calls sdk tr (stop_steps sdk src tr)).2
          then gst_spinnaker_src_reset src else src
        trace := (checked_calls sdk tr (stop_steps sdk src tr)).1 } := by
  simp only [gst_spinnaker_src_stop, EXEANDCHECK, spin, checked_calls, stop_steps]
  repeat' split
  all_goals first | rfl | simp_all

/-- A chain of checked calls issues a prefix of the list, in order: all calls
before the last issued one succeeded, and the chain stops early only at a
call that failed. -/
theorem checked_calls_spec (sdk : Sdk) (cs : List SdkCall) :
    ∀ tr : Trace, ∃ n : Nat, n ≤ cs.length ∧
      (checked_calls sdk tr cs).1 = tr ++ cs.take n ∧
      (∀ (i : Nat) (c : SdkCall), i + 1 < n → cs[i]? = some c →
        (sdk (tr ++ cs.take i) c).err = SPINNAKER_ERR_SUCCESS) ∧
      ((checked_calls sdk tr cs).2 = true → n = cs.length) ∧
      ((checked_calls sdk tr cs).2 = false → 1 ≤ n ∧ ∀ c : SdkCall, cs[n - 1]? = some c →
        (sdk (tr ++ cs.take (n - 1)) c).err ≠ SPINNAKER_ERR_SUCCESS) ∧
      (cs ≠ [] → 1 ≤ n) := by
  induction cs with
  | nil => intro tr; exact ⟨0, by simp [checked_calls]⟩
  | cons c cs ih =>
    intro tr
    by_cases h : SPINNAKER_ERR_SUCCESS ≠ (sdk tr c).err
    · refine ⟨1, by simp, by simp [checked_calls, h], ?_, by simp [checked_calls, h], ?_, by simp⟩
      · intro i c' hi; omega
      · intro _
        refine ⟨le_refl _, fun c' hc' => ?_⟩
        simp only [Nat.sub_self, List.getElem?_cons_zero, Option.some.injEq] at hc'
        subst hc'
        simpa [eq_comm] using h
    · obtain ⟨n, hn, h1, h2, h3, h4, h5⟩ := ih (tr ++ [c])
      have hc : (sdk tr c).err = SPINNAKER_ERR_SUCCESS := by
        simpa [eq_comm] using h
      refine ⟨n + 1, by simpa using hn, by simp [checked_calls, h, h1], ?_, ?_, ?_, by simp⟩
      · intro i c' hi hc'
        cases i with
        | zero =>
          simp only [List.getElem?_cons_zero, Option.some.injEq] at hc'
          subst hc'
          simpa using hc
        | succ i =>
          simp only [List.getElem?_cons_succ] at hc'
          have := h2 i c' (by omega) hc'
          simpa using this
      · intro hb
        simp only [checked_calls, h, if_false] at hb
        simp [h3 hb]
      · intro hb
        simp only [checked_calls, h, if_false] at hb
        obtain ⟨hn1, hlast⟩ := h4 hb
        refine ⟨by omega, fun c' hc' => ?_⟩
        obtain ⟨m, rfl⟩ : ∃ m, n = m + 1 := ⟨n - 1, by omega⟩
        simp only [Nat.add_sub_cancel, List.getElem?_cons_succ] at hc'
        have := hlast c' (by simpa using hc')
        simpa using this

theorem stop_steps_length (sdk : Sdk) (src : GstSpinnakerSrc) (tr : Trace) :
    (stop_steps sdk src tr).length = 7 := rfl

/-- The function `gst_spinnaker_src_stop` always returns `TRUE`. -/
theorem stop_ret (sdk : Sdk) (src : GstSpinnakerSrc) (tr : Trace) :
    (gst_spinnaker_src_stop sdk src tr).ret = TRUE := by
  rw [stop_eq_checked_calls]

/-- The session after `gst_spinnaker_src_stop` is the old one or the reset one. -/
theorem stop_src (sdk : Sdk) (src : GstSpinnakerSrc) (tr : Trace) :
    (gst_spinnaker_src_stop sdk src tr).src = src ∨
    (gst_spinnaker_src_stop sdk src tr).src = gst_spinnaker_src_reset src := by
  rw [stop_eq_checked_calls]
  dsimp only
  split_ifs
  · exact Or.inr rfl
  · exact Or.inl rfl

/-- The first SDK call of `gst_spinnaker_src_stop` is the camera lookup. -/
theorem stop_first_call (sdk : Sdk) (src : GstSpinnakerSrc) (tr : Trace) :
    (gst_spinnaker_src_stop sdk src tr).trace.take (tr.length + 1)
      = tr ++ [.spinCameraListGet src.hCameraList src.cameraID] := by
  obtain ⟨n, hn, h1, _, _, _, h5⟩ := checked_calls_spec sdk (stop_steps sdk src tr) tr
  have hn1 : 1 ≤ n := h5 (by simp [stop_steps])
  obtain ⟨m, rfl⟩ : ∃ m, n = m + 1 := ⟨n - 1, by omega⟩
  rw [stop_eq_checked_calls]
  dsimp only
  rw [h1]
  simp only [stop_steps, List.take_succ_cons]
  exact take_first_call _ _ _

/-- When the camera lookup fails, `gst_spinnaker_src_stop` is over. -/
theorem stop_lookup_fails (sdk : Sdk) (src : GstSpinnakerSrc) (tr : Trace)
    (h : (sdk tr (.spinCameraListGet src.hCameraList src.cameraID)).err
      ≠ SPINNAKER_ERR_SUCCESS) :
    (gst_spinnaker_src_stop sdk src tr).src = src ∧
    (gst_spinnaker_src_stop sdk src tr).trace
      = tr ++ [.spinCameraListGet src.hCameraList src.cameraID] := by
  have h2 : SPINNAKER_ERR_SUCCESS ≠ (sdk tr (.spinCameraListGet src.hCameraList src.cameraID)).err :=
    fun e => h e.symm
  simp only [gst_spinnaker_src_stop, EXEANDCHECK, spin, if_pos h2]
  simp

theorem reset_reset (src : GstSpinnakerSrc) :
    gst_spinnaker_src_reset (gst_spinnaker_src_reset src) = gst_spinnaker_src_reset src := rfl

/-- A chain of checked calls that reports success issued every call of the
list, and every one of them succeeded. -/
theorem checked_calls_all_ok (sdk : Sdk) (cs : List SdkCall) :
    ∀ tr : Trace, (checked_calls sdk tr cs).2 = true →
      ∀ (i : Nat) (c : SdkCall), cs[i]? = some c →
        (sdk (tr ++ cs.take i) c).err = SPINNAKER_ERR_SUCCESS := by
  induction cs with
  | nil => intro tr _ i c hc; simp at hc
  | cons c0 cs ih =>
    intro tr hb i c hc
    by_cases h : SPINNAKER_ERR_SUCCESS ≠ (sdk tr c0).err
    · simp [checked_calls, h] at hb
    · simp only [checked_calls, h, if_false] at hb
      cases i with
      | zero =>
        simp only [List.getElem?_cons_zero, Option.some.injEq] at hc
        subst hc
        simpa [eq_comm] using h
      | succ i =>
        simp only [List.getElem?_cons_succ] at hc
        have := ih (tr ++ [c0]) hb i c hc
        simpa using this

/-- C8 (the code at the failing input): on a started session whose
`spinCameraEndAcquisition` fails, `gst_spinnaker_src_stop` returns `TRUE`
after the camera lookup and that one call: the camera de-init, the camera
release, the list clear, the list destroy and the system release are each
attempted zero times, not once, and the session is not reset: it still holds
the system and the camera-list handle that were never released. -/
theorem stop_skips_after_failure :
    (gst_spinnaker_src_stop sdk_end_acquisition_fails started_instance []).ret = TRUE ∧
    (gst_spinnaker_src_stop sdk_end_acquisition_fails started_instance []).src
      = started_instance ∧
    (gst_spinnaker_src_stop sdk_end_acquisition_fails started_instance []).src.hSystem
      = some 1 ∧
    (gst_spinnaker_src_stop sdk_end_acquisition_fails started_instance []).src.hCameraList
      = some 2 ∧
    (gst_spinnaker_src_stop sdk_end_acquisition_fails started_instance []).trace
      = [.spinCameraListGet (some 2) 0, .spinCameraEndAcquisition (some 3)] ∧
    (gst_spinnaker_src_stop sdk_end_acquisition_fails started_instance []).trace.count
      (.spinCameraDeInit (some 3)) = 0 ∧
    (gst_spinnaker_src_stop sdk_end_acquisition_fails started_instance []).trace.count
      (.spinCameraListDestroy (some 2)) = 0 ∧
    (gst_spinnaker_src_stop sdk_end_acquisition_fails started_instance []).trace.count
      (.spinSystemReleaseInstance (some 1)) = 0 ∧
    ¬ (∀ c ∈ (stop_steps sdk_end_acquisition_fails started_instance []).tail,
      (gst_spinnaker_src_stop sdk_end_acquisition_fails started_instance []).trace.count c
        = 1) := by
  decide

/-- The teardown in general: for every combination of results of the SDK
calls, `gst_spinnaker_src_stop` returns `TRUE`; the calls it issues are the
first `n` of its seven steps (the camera lookup, then end acquisition, camera
de-init, camera release, list clear, list destroy, system release), in this
order and each once, with `1 ≤ n ≤ 7`; every issued call but the last
succeeded; and if `n < 7` the last issued call failed.  So a step is attempted
exactly when all the calls before it succeeded, and the session is reset
exactly when all seven were issued and the seventh succeeded too: a failing
call, the seventh included, leaves the session as it was. -/
theorem stop_teardown_until_failure (sdk : Sdk) (src : GstSpinnakerSrc) (tr : Trace) :
    (gst_spinnaker_src_stop sdk src tr).ret = TRUE ∧
    1 ≤ issued tr (gst_spinnaker_src_stop sdk src tr).trace ∧
    issued tr (gst_spinnaker_src_stop sdk src tr).trace ≤ 7 ∧
    (gst_spinnaker_src_stop sdk src tr).trace
      = tr ++ (stop_steps sdk src tr).take (issued tr (gst_spinnaker_src_stop sdk src tr).trace) ∧
    (∀ (i : Nat) (c : SdkCall), i + 1 < issued tr (gst_spinnaker_src_stop sdk src tr).trace →
      (stop_steps sdk src tr)[i]? = some c →
      (sdk (tr ++ (stop_steps sdk src tr).take i) c).err = SPINNAKER_ERR_SUCCESS) ∧
    (issued tr (gst_spinnaker_src_stop sdk src tr).trace < 7 → ∀ c : SdkCall,
      (stop_steps sdk src tr)[issued tr (gst_spinnaker_src_stop sdk src tr).trace - 1]? = some c →
      (sdk (tr ++ (stop_steps sdk src tr).take
        (issued tr (gst_spinnaker_src_stop sdk src tr).trace - 1)) c).err
        ≠ SPINNAKER_ERR_SUCCESS) ∧
    (gst_spinnaker_src_stop sdk src tr).src
      = if issued tr (gst_spinnaker_src_stop sdk src tr).trace = 7 ∧
          (sdk (tr ++ (stop_steps sdk src tr).take 6)
            (.spinSystemReleaseInstance src.hSystem)).err = SPINNAKER_ERR_SUCCESS
        then gst_spinnaker_src_reset src else src := by
  obtain ⟨n, hn, h1, h2, h3, h4, h5⟩ := checked_calls_spec sdk (stop_steps sdk src tr) tr
  rw [stop_steps_length] at hn h3
  have hn1 : 1 ≤ n := h5 (by simp [stop_steps])
  have hiss : issued tr (gst_spinnaker_src_stop sdk src tr).trace = n := by
    rw [stop_eq_checked_calls]
    simp only [issued, h1, List.length_append, List.length_take, stop_steps_length]
    omega
  rw [hiss]
  refine ⟨stop_ret sdk src tr, hn1, hn, ?_, h2, ?_, ?_⟩
  · rw [stop_eq_checked_calls]; exact h1
  · intro hlt c hc
    cases hb : (checked_calls sdk tr (stop_steps sdk src tr)).2 with
    | true => have := h3 hb; omega
    | false => exact (h4 hb).2 c hc
  · rw [stop_eq_checked_calls]
    cases hb : (checked_calls sdk tr (stop_steps sdk src tr)).2 with
    | true =>
      have hlast := checked_calls_all_ok sdk (stop_steps sdk src tr) tr hb 6
        (.spinSystemReleaseInstance src.hSystem) rfl
      simp [h3 hb, hlast]
    | false =>
      have hfail := (h4 hb).2
      have hne : ¬ (n = 7 ∧ (sdk (tr ++ (stop_steps sdk src tr).take 6)
          (.spinSystemReleaseInstance src.hSystem)).err = SPINNAKER_ERR_SUCCESS) := by
        rintro ⟨h7, hok⟩
        subst h7
        exact hfail (.spinSystemReleaseInstance src.hSystem) rfl hok
      simp [hne]

/-- The teardown at a concrete input: the started session with a failing
`spinCameraEndAcquisition`: two calls are issued, the lookup (step 0)
succeeded and step 1, the last one issued, failed. -/
theorem stop_teardown_until_failure_witness :
    issued [] (gst_spinnaker_src_stop sdk_end_acquisition_fails started_instance []).trace = 2 ∧
    (sdk_end_acquisition_fails
      ([] ++ (stop_steps sdk_end_acquisition_fails started_instance []).take 0)
      (.spinCameraListGet (some 2) 0)).err = SPINNAKER_ERR_SUCCESS ∧
    (sdk_end_acquisition_fails
      ([] ++ (stop_steps sdk_end_acquisition_fails started_instance []).take
        (issued [] (gst_spinnaker_src_stop sdk_end_acquisition_fails started_instance []).trace
          - 1))
      (.spinCameraEndAcquisition (some 3))).err ≠ SPINNAKER_ERR_SUCCESS :=
  have w := stop_teardown_until_failure sdk_end_acquisition_fails started_instance []
  ⟨by decide, w.2.2.2.2.1 0 _ (by decide) (by decide),
    w.2.2.2.2.2.1 (by decide) _ (by decide)⟩

/-- C9 (counterexample): on a started session, with an SDK that rejects a
`NULL` camera list, the second of two calls of `gst_spinnaker_src_stop` in a
row issues an SDK call: `spinCameraListGet` on the `NULL` list. -/
theorem stop_again_calls_sdk :
    (gst_spinnaker_src_stop sdk_checks_handles started_instance []).src
      = gst_spinnaker_src_reset started_instance ∧
    (gst_spinnaker_src_stop sdk_checks_handles
        (gst_spinnaker_src_stop sdk_checks_handles started_instance []).src
        (gst_spinnaker_src_stop sdk_checks_handles started_instance []).trace).trace
      = (gst_spinnaker_src_stop sdk_checks_handles started_instance []).trace
        ++ [.spinCameraListGet none 0] ∧
    issued (gst_spinnaker_src_stop sdk_checks_handles started_instance []).trace
      (gst_spinnaker_src_stop sdk_checks_handles
        (gst_spinnaker_src_stop sdk_checks_handles started_instance []).src
        (gst_spinnaker_src_stop sdk_checks_handles started_instance []).trace).trace ≠ 0 := by
  decide

/-- C9 (amended): calling `gst_spinnaker_src_stop` twice in a row returns
`TRUE` both times; the second call always issues at least one SDK call, the
camera lookup `spinCameraListGet` (on the `NULL` list with index 0 when the
first call completed and reset the session); when the first call completed,
the session after the second call equals the session after the first; and
when the SDK rejects that lookup, the lookup is the only SDK call of the
second stop. -/
theorem stop_twice (sdk : Sdk) (src : GstSpinnakerSrc) (tr : Trace) :
    (gst_spinnaker_src_stop sdk src tr).ret = TRUE ∧
    (gst_spinnaker_src_stop sdk (gst_spinnaker_src_stop sdk src tr).src
      (gst_spinnaker_src_stop sdk src tr).trace).ret = TRUE ∧
    (gst_spinnaker_src_stop sdk (gst_spinnaker_src_stop sdk src tr).src
        (gst_spinnaker_src_stop sdk src tr).trace).trace.take
        ((gst_spinnaker_src_stop sdk src tr).trace.length + 1)
      = (gst_spinnaker_src_stop sdk src tr).trace
        ++ [.spinCameraListGet (gst_spinnaker_src_stop sdk src tr).src.hCameraList
              (gst_spinnaker_src_stop sdk src tr).src.cameraID] ∧
    ((gst_spinnaker_src_stop sdk src tr).src = gst_spinnaker_src_reset src →
      (gst_spinnaker_src_stop sdk src tr).src.hCameraList = none ∧
      (gst_spinnaker_src_stop sdk src tr).src.cameraID = 0 ∧
      (gst_spinnaker_src_stop sdk (gst_spinnaker_src_stop sdk src tr).src
        (gst_spinnaker_src_stop sdk src tr).trace).src
        = (gst_spinnaker_src_stop sdk src tr).src) ∧
    ((sdk (gst_spinnaker_src_stop sdk src tr).trace
        (.spinCameraListGet (gst_spinnaker_src_stop sdk src tr).src.hCameraList
          (gst_spinnaker_src_stop sdk src tr).src.cameraID)).err ≠ SPINNAKER_ERR_SUCCESS →
      (gst_spinnaker_src_stop sdk (gst_spinnaker_src_stop sdk src tr).src
        (gst_spinnaker_src_stop sdk src tr).trace).src
        = (gst_spinnaker_src_stop sdk src tr).src ∧
      (gst_spinnaker_src_stop sdk (gst_spinnaker_src_stop sdk src tr).src
        (gst_spinnaker_src_stop sdk src tr).trace).trace
        = (gst_spinnaker_src_stop sdk src tr).trace
          ++ [.spinCameraListGet (gst_spinnaker_src_stop sdk src tr).src.hCameraList
                (gst_spinnaker_src_stop sdk src tr).src.cameraID]) := by
  refine ⟨stop_ret _ _ _, stop_ret _ _ _, stop_first_call _ _ _, ?_, ?_⟩
  · intro hreset
    refine ⟨by rw [hreset]; rfl, by rw [hreset]; rfl, ?_⟩
    rcases stop_src sdk (gst_spinnaker_src_stop sdk src tr).src
      (gst_spinnaker_src_stop sdk src tr).trace with h | h
    · exact h
    · rw [h, hreset, reset_reset]
  · intro hfail
    exact stop_lookup_fails _ _ _ hfail

/-- C9 (witness): the started session on an SDK that rejects a `NULL` camera
list: the first stop resets the session, the second stop leaves it as it is
and issues exactly the lookup on the `NULL` list. -/
theorem stop_twice_witness :
    (gst_spinnaker_src_stop sdk_checks_handles started_instance []).src
      = gst_spinnaker_src_reset started_instance ∧
    (gst_spinnaker_src_stop sdk_checks_handles
        (gst_spinnaker_src_stop sdk_checks_handles started_instance []).src
        (gst_spinnaker_src_stop sdk_checks_handles started_instance []).trace).src
      = (gst_spinnaker_src_stop sdk_checks_handles started_instance []).src ∧
    (gst_spinnaker_src_stop sdk_checks_handles
        (gst_spinnaker_src_stop sdk_checks_handles started_instance []).src
        (gst_spinnaker_src_stop sdk_checks_handles started_instance []).trace).trace
      = (gst_spinnaker_src_stop sdk_checks_handles started_instance []).trace
        ++ [.spinCameraListGet
              (gst_spinnaker_src_stop sdk_checks_handles started_instance []).src.hCameraList
              (gst_spinnaker_src_stop sdk_checks_handles started_instance []).src.cameraID] :=
  have w := stop_twice sdk_checks_handles started_instance []
  ⟨by decide, (w.2.2.2.1 (by decide)).2.2, (w.2.2.2.2 (by decide)).2⟩

/-! ## Frame production outside a started session -/

/-- C10 (counterexample): on the new instance, before any start, and on the
session that a completed stop has reset, `gst_spinnaker_src_create` returns
`GST_FLOW_ERROR` on an SDK that rejects a `NULL` camera list, but not without
an SDK call: it has issued `spinCameraListGet` on the `NULL` list. -/
theorem create_not_started_calls_sdk :
    fresh_instance.hCameraList = none ∧ fresh_instance.cameraPresent = false ∧
    (gst_spinnaker_src_create sdk_checks_handles (fun _ => 0) fresh_instance []).ret
      = .GST_FLOW_ERROR ∧
    (gst_spinnaker_src_create sdk_checks_handles (fun _ => 0) fresh_instance []).trace
      = [.spinCameraListGet none 0] ∧
    (gst_spinnaker_src_create sdk_checks_handles (fun _ => 0) fresh_instance []).trace ≠ [] ∧
    (gst_spinnaker_src_create sdk_checks_handles (fun _ => 0)
        (gst_spinnaker_src_stop sdk_checks_handles started_instance []).src []).trace
      = [.spinCameraListGet none 0] := by
  decide

/-- C10 (amended): called in a state that is not started (`hCameraList` is
`NULL`), `gst_spinnaker_src_create` first issues the SDK call
`spinCameraListGet` on the `NULL` list; when the SDK rejects that call, the
function returns `GST_FLOW_ERROR` after this one SDK call, with no buffer and
the session unchanged. -/
theorem create_not_started (sdk : Sdk) (content : Mem) (src : GstSpinnakerSrc) (tr : Trace)
    (hnull : src.hCameraList = none) :
    (gst_spinnaker_src_create sdk content src tr).trace.take (tr.length + 1)
      = tr ++ [.spinCameraListGet none src.cameraID] ∧
    ((sdk tr (.spinCameraListGet none src.cameraID)).err ≠ SPINNAKER_ERR_SUCCESS →
      (gst_spinnaker_src_create sdk content src tr).ret = .GST_FLOW_ERROR ∧
      (gst_spinnaker_src_create sdk content src tr).src = src ∧
      (gst_spinnaker_src_create sdk content src tr).buf.isNone = true ∧
      (gst_spinnaker_src_create sdk content src tr).trace
        = tr ++ [.spinCameraListGet none src.cameraID]) := by
  have h1 := create_first_call sdk content src tr
  rw [hnull] at h1
  refine ⟨h1, fun hfail => ?_⟩
  have h2 := create_lookup_fails sdk content src tr (by rw [hnull]; exact hfail)
  rw [hnull] at h2
  exact h2

/-- C10 (witness): the new instance on an SDK that rejects a `NULL` camera
list: `GST_FLOW_ERROR`, no buffer, one SDK call. -/
theorem create_not_started_witness :
    (fresh_instance.hCameraList = none ∧
      (sdk_checks_handles [] (.spinCameraListGet none fresh_instance.cameraID)).err
        ≠ SPINNAKER_ERR_SUCCESS) ∧
    (gst_spinnaker_src_create sdk_checks_handles (fun _ => 0) fresh_instance []).ret
      = .GST_FLOW_ERROR ∧
    (gst_spinnaker_src_create sdk_checks_handles (fun _ => 0) fresh_instance []).src
      = fresh_instance ∧
    (gst_spinnaker_src_create sdk_checks_handles (fun _ => 0) fresh_instance []).buf.isNone
      = true ∧
    (gst_spinnaker_src_create sdk_checks_handles (fun _ => 0) fresh_instance []).trace
      = [] ++ [.spinCameraListGet none fresh_instance.cameraID] :=
  ⟨by decide,
    (create_not_started sdk_checks_handles (fun _ => 0) fresh_instance [] (by decide)).2
      (by decide)⟩

/-! ## Properties -/

/-- The width case of `gst_spinnaker_src_set_property` once the node is ready:
the clamp, the write, and the store that follows an accepted write. -/
theorem set_width_run (sdk : Sdk) (src : GstSpinnakerSrc) (tr : Trace) (value : Int)
    (hCamera hNodeMap hNode : Handle) (max : Int)
    (h : node_ready sdk src tr .Width hCamera hNodeMap hNode max) :
    gst_spinnaker_src_set_property sdk PROP_WIDTH value src tr
      = if value > max then
          if SPINNAKER_ERR_SUCCESS ≠ (sdk (tr ++ property_calls src .Width hCamera hNodeMap hNode)
              (.spinIntegerSetValue hNode max)).err
          then { src := src, trace := tr ++ property_calls src .Width hCamera hNodeMap hNode
                  ++ [.spinIntegerSetValue hNode max] }
          else { src := { src with nWidth := max },
                 trace := tr ++ property_calls src .Width hCamera hNodeMap hNode
                  ++ [.spinIntegerSetValue hNode max] }
        else
          if SPINNAKER_ERR_SUCCESS ≠ (sdk (tr ++ property_calls src .Width hCamera hNodeMap hNode)
              (.spinIntegerSetValue hNode value)).err
          then { src := src, trace := tr ++ property_calls src .Width hCamera hNodeMap hNode
                  ++ [.spinIntegerSetValue hNode value] }
          else { src := { src with nWidth := value },
                 trace := tr ++ property_calls src .Width hCamera hNodeMap hNode
                  ++ [.spinIntegerSetValue hNode value] } := by
  obtain ⟨h1, h2, h3, h4, h5, h6, h7, h8, h9, h10⟩ := h
  simp only [property_calls, List.take_succ_cons, List.take_zero] at h3 h4 h5 h6 h7 h8 h9 h10
  simp only [gst_spinnaker_src_set_property, EXEANDCHECK, spin, IsAvailableAndWritable,
    property_calls, PROP_WIDTH, PROP_CAMERA, List.append_assoc, List.singleton_append,
    h1, h2, h3, h4, h5, h6, h7, h8, h9, h10]
  simp [h1, h2, h3, h4, h5, h6, h7, h8, h9, h10]

/-- The height case of `gst_spinnaker_src_set_property` once the node is ready;
its unclamped write goes through the `NULL` handle `hWidth`. -/
theorem set_height_run (sdk : Sdk) (src : GstSpinnakerSrc) (tr : Trace) (value : Int)
    (hCamera hNodeMap hNode : Handle) (max : Int)
    (h : node_ready sdk src tr .Height hCamera hNodeMap hNode max) :
    gst_spinnaker_src_set_property sdk PROP_HEIGHT value src tr
      = if value > max then
          if SPINNAKER_ERR_SUCCESS ≠ (sdk (tr ++ property_calls src .Height hCamera hNodeMap hNode)
              (.spinIntegerSetValue hNode max)).err
          then { src := src, trace := tr ++ property_calls src .Height hCamera hNodeMap hNode
                  ++ [.spinIntegerSetValue hNode max] }
          else { src := { src with nHeight := max },
                 trace := tr ++ property_calls src .Height hCamera hNodeMap hNode
                  ++ [.spinIntegerSetValue hNode max] }
        else
          if SPINNAKER_ERR_SUCCESS ≠ (sdk (tr ++ property_calls src .Height hCamera hNodeMap hNode)
              (.spinIntegerSetValue none value)).err
          then { src := src, trace := tr ++ property_calls src .Height hCamera hNodeMap hNode
                  ++ [.spinIntegerSetValue none value] }
          else { src := { src with nHeight := value },
                 trace := tr ++ property_calls src .Height hCamera hNodeMap hNode
                  ++ [.spinIntegerSetValue none value] } := by
  obtain ⟨h1, h2, h3, h4, h5, h6, h7, h8, h9, h10⟩ := h
  simp only [property_calls, List.take_succ_cons, List.take_zero] at h3 h4 h5 h6 h7 h8 h9 h10
  simp only [gst_spinnaker_src_set_property, EXEANDCHECK, spin, IsAvailableAndWritable,
    property_calls, PROP_WIDTH, PROP_HEIGHT, PROP_CAMERA, List.append_assoc, List.singleton_append,
    h1, h2, h3, h4, h5, h6, h7, h8, h9, h10]
  simp [h1, h2, h3, h4, h5, h6, h7, h8, h9, h10]


/-- Before its `switch`, `gst_spinnaker_src_set_property` leaves through `fail`
when the camera lookup or the node-map retrieval fails. -/
theorem set_property_early_exit (sdk : Sdk) (property_id : Nat) (value : Int)
    (src : GstSpinnakerSrc) (tr : Trace) :
    ((sdk tr (.spinCameraListGet src.hCameraList src.cameraID)).err ≠ SPINNAKER_ERR_SUCCESS →
      (gst_spinnaker_src_set_property sdk property_id value src tr).src = src ∧
      (gst_spinnaker_src_set_property sdk property_id value src tr).trace
        = tr ++ [.spinCameraListGet src.hCameraList src.cameraID]) ∧
    ((sdk tr (.spinCameraListGet src.hCameraList src.cameraID)).err = SPINNAKER_ERR_SUCCESS →
      (sdk (tr ++ [.spinCameraListGet src.hCameraList src.cameraID])
        (.spinCameraGetNodeMap
          (sdk tr (.spinCameraListGet src.hCameraList src.cameraID)).handle)).err
        ≠ SPINNAKER_ERR_SUCCESS →
      (gst_spinnaker_src_set_property sdk property_id value src tr).src = src ∧
      (gst_spinnaker_src_set_property sdk property_id value src tr).trace
        = tr ++ [.spinCameraListGet src.hCameraList src.cameraID,
                 .spinCameraGetNodeMap
                   (sdk tr (.spinCameraListGet src.hCameraList src.cameraID)).handle]) := by
  constructor
  · intro h
    have h2 : SPINNAKER_ERR_SUCCESS
        ≠ (sdk tr (.spinCameraListGet src.hCameraList src.cameraID)).err := fun e => h e.symm
    simp only [gst_spinnaker_src_set_property, EXEANDCHECK, spin, if_pos h2]
    simp
  · intro h1 h
    have h2 : SPINNAKER_ERR_SUCCESS
        ≠ (sdk (tr ++ [.spinCameraListGet src.hCameraList src.cameraID])
          (.spinCameraGetNodeMap
            (sdk tr (.spinCameraListGet src.hCameraList src.cameraID)).handle)).err :=
      fun e => h e.symm
    simp only [gst_spinnaker_src_set_property, EXEANDCHECK, spin, h1, if_pos h2]
    simp

/-- C11 (counterexample): a started session on a sensor of 320 by 240 whose
device rejects integer writes: the width node and the height node are
reached, available and writable, the requests of width 1000 and of height
1000 exceed the maxima 320 and 240, and the maxima are written to the nodes;
but the writes are rejected, and the session stores neither maximum: `nWidth`
stays 640 and `nHeight` stays 512. -/
theorem set_property_clamp_not_stored :
    (node_ready sdk_rejects_write started_instance [] .Width (some 3) (some 4) (some 13) 320 ∧
      (gst_spinnaker_src_set_property sdk_rejects_write PROP_WIDTH 1000 started_instance []).trace
        = property_calls started_instance .Width (some 3) (some 4) (some 13)
          ++ [.spinIntegerSetValue (some 13) 320] ∧
      (gst_spinnaker_src_set_property sdk_rejects_write PROP_WIDTH 1000 started_instance []).src
        = started_instance ∧
      (gst_spinnaker_src_set_property sdk_rejects_write PROP_WIDTH 1000
        started_instance []).src.nWidth = 640) ∧
    (node_ready sdk_rejects_write started_instance [] .Height (some 3) (some 4) (some 14) 240 ∧
      (gst_spinnaker_src_set_property sdk_rejects_write PROP_HEIGHT 1000 started_instance []).trace
        = property_calls started_instance .Height (some 3) (some 4) (some 14)
          ++ [.spinIntegerSetValue (some 14) 240] ∧
      (gst_spinnaker_src_set_property sdk_rejects_write PROP_HEIGHT 1000 started_instance []).src
        = started_instance ∧
      (gst_spinnaker_src_set_property sdk_rejects_write PROP_HEIGHT 1000
        started_instance []).src.nHeight = 512) := by
  unfold node_ready
  decide

/-- C11 (amended): in `gst_spinnaker_src_set_property`, for the width property
and for the height property alike, when the node is reached, available and
writable and the requested value exceeds the maximum the device reports, the
function issues, as its last SDK call, the write of exactly that maximum to
the handle of that property's own node.  When the device accepts this write
the session field (`nWidth`, respectively `nHeight`) holds exactly the
maximum, no other field having changed; when the device rejects it the
session is left as it was, so the maximum is not stored.  The function has no
result, so in neither case is an error reported. -/
theorem set_property_clamps (sdk : Sdk) (src : GstSpinnakerSrc) (tr : Trace) (value : Int)
    (hCamera hNodeMap hNode : Handle) (max : Int) :
    (node_ready sdk src tr .Width hCamera hNodeMap hNode max → value > max →
      (gst_spinnaker_src_set_property sdk PROP_WIDTH value src tr).trace
        = tr ++ property_calls src .Width hCamera hNodeMap hNode
          ++ [.spinIntegerSetValue hNode max] ∧
      ((sdk (tr ++ property_calls src .Width hCamera hNodeMap hNode)
          (.spinIntegerSetValue hNode max)).err = SPINNAKER_ERR_SUCCESS →
        (gst_spinnaker_src_set_property sdk PROP_WIDTH value src tr).src
          = { src with nWidth := max }) ∧
      ((sdk (tr ++ property_calls src .Width hCamera hNodeMap hNode)
          (.spinIntegerSetValue hNode max)).err ≠ SPINNAKER_ERR_SUCCESS →
        (gst_spinnaker_src_set_property sdk PROP_WIDTH value src tr).src = src)) ∧
    (node_ready sdk src tr .Height hCamera hNodeMap hNode max → value > max →
      (gst_spinnaker_src_set_property sdk PROP_HEIGHT value src tr).trace
        = tr ++ property_calls src .Height hCamera hNodeMap hNode
          ++ [.spinIntegerSetValue hNode max] ∧
      ((sdk (tr ++ property_calls src .Height hCamera hNodeMap hNode)
          (.spinIntegerSetValue hNode max)).err = SPINNAKER_ERR_SUCCESS →
        (gst_spinnaker_src_set_property sdk PROP_HEIGHT value src tr).src
          = { src with nHeight := max }) ∧
      ((sdk (tr ++ property_calls src .Height hCamera hNodeMap hNode)
          (.spinIntegerSetValue hNode max)).err ≠ SPINNAKER_ERR_SUCCESS →
        (gst_spinnaker_src_set_property sdk PROP_HEIGHT value src tr).src = src)) := by
  constructor
  · intro hready hgt
    rw [set_width_run sdk src tr value hCamera hNodeMap hNode max hready, if_pos hgt]
    refine ⟨by split_ifs <;> rfl, fun hok => ?_, fun hbad => ?_⟩
    · rw [if_neg (fun e => e hok.symm)]
    · rw [if_pos (fun e => hbad e.symm)]
  · intro hready hgt
    rw [set_height_run sdk src tr value hCamera hNodeMap hNode max hready, if_pos hgt]
    refine ⟨by split_ifs <;> rfl, fun hok => ?_, fun hbad => ?_⟩
    · rw [if_neg (fun e => e hok.symm)]
    · rw [if_pos (fun e => hbad e.symm)]

/-- C11 (witness): a started session on a sensor of 320 by 240.  On a device
that accepts the writes, the request of width 1000 writes 320 to the width
node and stores 320, the request of height 1000 writes 240 to the height node
and stores 240; on a device that rejects the writes the same requests leave
the session as it was. -/
theorem set_property_clamps_witness :
    ((gst_spinnaker_src_set_property sdk_small_sensor PROP_WIDTH 1000 started_instance []).trace
        = [] ++ property_calls started_instance .Width (some 3) (some 4) (some 13)
          ++ [.spinIntegerSetValue (some 13) 320] ∧
      (gst_spinnaker_src_set_property sdk_small_sensor PROP_WIDTH 1000 started_instance []).src
        = { started_instance with nWidth := 320 }) ∧
    ((gst_spinnaker_src_set_property sdk_small_sensor PROP_HEIGHT 1000 started_instance []).trace
        = [] ++ property_calls started_instance .Height (some 3) (some 4) (some 14)
          ++ [.spinIntegerSetValue (some 14) 240] ∧
      (gst_spinnaker_src_set_property sdk_small_sensor PROP_HEIGHT 1000 started_instance []).src
        = { started_instance with nHeight := 240 }) ∧
    (gst_spinnaker_src_set_property sdk_rejects_write PROP_WIDTH 1000 started_instance []).src
      = started_instance ∧
    (gst_spinnaker_src_set_property sdk_rejects_write PROP_HEIGHT 1000 started_instance []).src
      = started_instance :=
  have w := (set_property_clamps sdk_small_sensor started_instance [] 1000
    (some 3) (some 4) (some 13) 320).1 (by unfold node_ready; decide) (by decide)
  have h := (set_property_clamps sdk_small_sensor started_instance [] 1000
    (some 3) (some 4) (some 14) 240).2 (by unfold node_ready; decide) (by decide)
  have w2 := (set_property_clamps sdk_rejects_write started_instance [] 1000
    (some 3) (some 4) (some 13) 320).1 (by unfold node_ready; decide) (by decide)
  have h2 := (set_property_clamps sdk_rejects_write started_instance [] 1000
    (some 3) (some 4) (some 14) 240).2 (by unfold node_ready; decide) (by decide)
  ⟨⟨w.1, w.2.1 (by decide)⟩, ⟨h.1, h.2.1 (by decide)⟩, w2.2.2 (by decide), h2.2.2 (by decide)⟩

/-- C15 (counterexample): a started session on an SDK that rejects a write
through a `NULL` node handle: the request of height 100, below the maximum
512 of the available and writable height node, issues the write on the `NULL`
handle, and `nHeight` is not set to 100: it keeps its value 512. -/
theorem set_height_not_stored :
    node_ready sdk_rejects_null_write started_instance [] .Height (some 3) (some 4) (some 14)
      512 ∧
    (gst_spinnaker_src_set_property sdk_rejects_null_write PROP_HEIGHT 100
        started_instance []).trace
      = property_calls started_instance .Height (some 3) (some 4) (some 14)
        ++ [.spinIntegerSetValue none 100] ∧
    (gst_spinnaker_src_set_property sdk_rejects_null_write PROP_HEIGHT 100
        started_instance []).src.nHeight = 512 ∧
    (gst_spinnaker_src_set_property sdk_rejects_null_write PROP_HEIGHT 100
        started_instance []).src.nHeight ≠ 100 := by
  unfold node_ready
  decide

/-- C15 (amended): in `gst_spinnaker_src_set_property` for the height
property, when the height node is reached, available and writable and the
requested value does not exceed the device maximum, the one integer write of
the call is issued on the handle `hWidth`, which this branch never retrieved
and which is therefore `NULL`, and no write is issued on the handle of the
height node; `nHeight` is set to the requested value when the SDK reports
success for that write, and the session is left unchanged when the SDK
rejects it. -/
theorem set_height_writes_width_handle (sdk : Sdk) (src : GstSpinnakerSrc) (tr : Trace)
    (value : Int) (hCamera hNodeMap hNode : Handle) (max : Int)
    (hready : node_ready sdk src tr .Height hCamera hNodeMap hNode max)
    (hle : value ≤ max) :
    (gst_spinnaker_src_set_property sdk PROP_HEIGHT value src tr).trace
      = tr ++ property_calls src .Height hCamera hNodeMap hNode
        ++ [.spinIntegerSetValue none value] ∧
    (hNode ≠ none → ∀ v : Int, SdkCall.spinIntegerSetValue hNode v
      ∉ property_calls src .Height hCamera hNodeMap hNode ++ [.spinIntegerSetValue none value]) ∧
    ((sdk (tr ++ property_calls src .Height hCamera hNodeMap hNode)
        (.spinIntegerSetValue none value)).err = SPINNAKER_ERR_SUCCESS →
      (gst_spinnaker_src_set_property sdk PROP_HEIGHT value src tr).src
        = { src with nHeight := value }) ∧
    ((sdk (tr ++ property_calls src .Height hCamera hNodeMap hNode)
        (.spinIntegerSetValue none value)).err ≠ SPINNAKER_ERR_SUCCESS →
      (gst_spinnaker_src_set_property sdk PROP_HEIGHT value src tr).src = src) := by
  rw [set_height_run sdk src tr value hCamera hNodeMap hNode max hready,
    if_neg (not_lt.mpr hle)]
  refine ⟨by split_ifs <;> rfl, ?_, fun hok => ?_, fun hbad => ?_⟩
  · intro hne v hmem
    simp only [property_calls, List.cons_append, List.nil_append, List.mem_cons,
      List.mem_singleton, SdkCall.spinIntegerSetValue.injEq, reduceCtorEq, false_or,
      List.mem_nil_iff, or_false] at hmem
    exact hne hmem.1
  · rw [if_neg (fun e => e hok.symm)]
  · rw [if_pos (fun e => hbad e.symm)]

/-- C15 (witness): a started session whose SDK accepts every call: the
request of height 100 goes out as a write on the `NULL` handle, none on the
height node `some 14`, and `nHeight` becomes 100. -/
theorem set_height_writes_width_handle_witness :
    (node_ready sdk_ok started_instance [] .Height (some 3) (some 4) (some 14) 512 ∧
      (100 : Int) ≤ 512) ∧
    (gst_spinnaker_src_set_property sdk_ok PROP_HEIGHT 100 started_instance []).trace
      = [] ++ property_calls started_instance .Height (some 3) (some 4) (some 14)
        ++ [.spinIntegerSetValue none 100] ∧
    SdkCall.spinIntegerSetValue (some 14) 100
      ∉ property_calls started_instance .Height (some 3) (some 4) (some 14)
        ++ [.spinIntegerSetValue none 100] ∧
    (gst_spinnaker_src_set_property sdk_ok PROP_HEIGHT 100 started_instance []).src
      = { started_instance with nHeight := 100 } :=
  have w := set_height_writes_width_handle sdk_ok started_instance [] 100
    (some 3) (some 4) (some 14) 512 (by unfold node_ready; decide) (by decide)
  ⟨⟨by unfold node_ready; decide, by decide⟩, w.1, w.2.1 (by decide) 100, w.2.2.1 (by decide)⟩

/-- C16: `gst_spinnaker_src_set_property` changes no session field, whatever
the property id and the value, when the lookup of the current camera in the
camera list fails, and likewise when that lookup succeeds and the node-map
retrieval fails.  In particular in a state with no camera list, where the
SDK rejects the lookup on the `NULL` list, a camera-id write is dropped; the
new instance and every session that `gst_spinnaker_src_reset` has reset are
such states, with `cameraID = 0`, which therefore stays 0. -/
theorem set_property_dropped (sdk : Sdk) (property_id : Nat) (value : Int)
    (src : GstSpinnakerSrc) (tr : Trace) :
    ((sdk tr (.spinCameraListGet src.hCameraList src.cameraID)).err ≠ SPINNAKER_ERR_SUCCESS →
      (gst_spinnaker_src_set_property sdk property_id value src tr).src = src) ∧
    ((sdk (tr ++ [.spinCameraListGet src.hCameraList src.cameraID])
        (.spinCameraGetNodeMap
          (sdk tr (.spinCameraListGet src.hCameraList src.cameraID)).handle)).err
        ≠ SPINNAKER_ERR_SUCCESS →
      (gst_spinnaker_src_set_property sdk property_id value src tr).src = src) ∧
    (src.hCameraList = none →
      (sdk tr (.spinCameraListGet none src.cameraID)).err ≠ SPINNAKER_ERR_SUCCESS →
      (gst_spinnaker_src_set_property sdk PROP_CAMERA value src tr).src = src ∧
      (gst_spinnaker_src_set_property sdk PROP_CAMERA value src tr).src.cameraID
        = src.cameraID) ∧
    (fresh_instance.hCameraList = none ∧ fresh_instance.cameraID = 0) ∧
    ((gst_spinnaker_src_reset src).hCameraList = none ∧
      (gst_spinnaker_src_reset src).cameraID = 0) := by
  have hearly := set_property_early_exit sdk property_id value src tr
  refine ⟨fun h => (hearly.1 h).1, fun h => ?_, fun hnull h => ?_, by decide, ⟨rfl, rfl⟩⟩
  · by_cases h1 : (sdk tr (.spinCameraListGet src.hCameraList src.cameraID)).err
        = SPINNAKER_ERR_SUCCESS
    · exact (hearly.2 h1 h).1
    · exact (hearly.1 h1).1
  · have h2 := (set_property_early_exit sdk PROP_CAMERA value src tr).1
      (by rw [hnull]; exact h)
    exact ⟨h2.1, by rw [h2.1]⟩

/-- C16 (witness): on the new instance, with an SDK that rejects the lookup on
a `NULL` camera list, the write of camera id 5 leaves the session as it was,
with `cameraID = 0`. -/
theorem set_property_dropped_witness :
    (fresh_instance.hCameraList = none ∧
      (sdk_checks_handles [] (.spinCameraListGet none fresh_instance.cameraID)).err
        ≠ SPINNAKER_ERR_SUCCESS) ∧
    (gst_spinnaker_src_set_property sdk_checks_handles PROP_CAMERA 5 fresh_instance []).src
      = fresh_instance ∧
    (gst_spinnaker_src_set_property sdk_checks_handles PROP_CAMERA 5
      fresh_instance []).src.cameraID = fresh_instance.cameraID ∧
    fresh_instance.cameraID = 0 :=
  have w := (set_property_dropped sdk_checks_handles PROP_CAMERA 5 fresh_instance []).2.2.1
    (by decide) (by decide)
  ⟨by decide, w.1, w.2, by decide⟩

/-! ## Frame production: the raw frame and the buffer size -/

/-- C12 (the code at the failing inputs): on a started session whose
`spinCameraGetNextImage` succeeds with the raw frame `some 5`,
`gst_spinnaker_src_create` returns `GST_FLOW_ERROR` without any call of
`spinImageRelease` when `spinImageGetData` fails, and also when
`spinCameraRelease` fails: the label `fail` releases nothing.  Only the path
on which every checked call succeeds releases the raw frame, once, as the
run with a failing conversion shows. -/
theorem create_leaks_raw_frame :
    ((sdk_getdata_fails [.spinCameraListGet (some 2) 0]
        (.spinCameraGetNextImage (some 3))).err = SPINNAKER_ERR_SUCCESS ∧
      (sdk_getdata_fails [.spinCameraListGet (some 2) 0]
        (.spinCameraGetNextImage (some 3))).handle = some 5 ∧
      (gst_spinnaker_src_create sdk_getdata_fails (fun _ => 0) started_instance []).ret
        = .GST_FLOW_ERROR ∧
      (gst_spinnaker_src_create sdk_getdata_fails (fun _ => 0) started_instance []).trace
        = [.spinCameraListGet (some 2) 0, .spinCameraGetNextImage (some 3),
           .spinCameraRelease (some 3), .spinImageIsIncomplete (some 5),
           .spinImageCreateEmpty, .spinImageConvert (some 5) (some 6),
           .spinImageGetBufferSize (some 6), .spinImageGetBufferSize (some 5),
           .spinImageGetData (some 6)] ∧
      (gst_spinnaker_src_create sdk_getdata_fails (fun _ => 0) started_instance []).trace.count
        (.spinImageRelease (some 5)) = 0) ∧
    ((gst_spinnaker_src_create sdk_camera_release_fails (fun _ => 0) started_instance []).ret
        = .GST_FLOW_ERROR ∧
      (gst_spinnaker_src_create sdk_camera_release_fails (fun _ => 0) started_instance []).trace
        = [.spinCameraListGet (some 2) 0, .spinCameraGetNextImage (some 3),
           .spinCameraRelease (some 3)] ∧
      (gst_spinnaker_src_create sdk_camera_release_fails (fun _ => 0)
        started_instance []).trace.count (.spinImageRelease (some 5)) = 0) ∧
    ((gst_spinnaker_src_create sdk_convert_fails (fun _ => 0) started_instance []).ret
        = .GST_FLOW_OK ∧
      (gst_spinnaker_src_create sdk_convert_fails (fun _ => 0) started_instance []).trace.count
        (.spinImageRelease (some 5)) = 1) := by
  decide

/-- C13 (the code at the failing input): on a started session of 640 by 512
with `gst_stride = nWidth * 1 = 640`, the buffer that
`gst_spinnaker_src_create` allocates has 5,242,880 bytes, which is
`nHeight * nWidth * 16`, and not the 327,680 bytes of `nHeight * gst_stride`. -/
theorem create_buffer_oversized :
    started_instance.nWidth = 640 ∧ started_instance.nHeight = 512 ∧
    started_instance.nBytesPerPixel = 1 ∧
    started_instance.gst_stride = started_instance.nWidth * 1 ∧
    started_instance.nHeight * started_instance.gst_stride = 327680 ∧
    (gst_spinnaker_src_create sdk_ok (fun _ => 0) started_instance []).ret = .GST_FLOW_OK ∧
    (gst_spinnaker_src_create sdk_ok (fun _ => 0) started_instance []).buf.map GstBuffer.size
      = some 5242880 ∧
    (gst_spinnaker_src_create sdk_ok (fun _ => 0) started_instance []).buf.map GstBuffer.size
      ≠ some (started_instance.nHeight * started_instance.gst_stride).toNat := by
  decide

/-! ## Configuration of the camera: writes follow checks -/

theorem getElem?_lt {α : Type} (t : List α) (i : Nat) (c : α) (h : t[i]? = some c) :
    i < t.length := by
  by_contra hn
  rw [List.getElem?_eq_none (by omega)] at h
  cases h

theorem getElem?_append_add {α : Type} (t l : List α) (k : Nat) :
    (t ++ l)[t.length + k]? = l[k]? := by
  rw [List.getElem?_append_right (by omega)]
  simp

theorem getElem?_snoc_lt {α : Type} (t : List α) (c : α) (i : Nat) (h : i < t.length) :
    (t ++ [c])[i]? = t[i]? := List.getElem?_append_left h

theorem getElem?_snoc_eq {α : Type} (t : List α) (c : α) : (t ++ [c])[t.length]? = some c := by
  rw [List.getElem?_append_right (le_refl _)]
  simp

theorem check_passed_grow (sdk : Sdk) (t l : Trace) (i : Nat) (h : Handle)
    (hp : check_passed sdk t i h) : check_passed sdk (t ++ l) i h := by
  obtain ⟨h1, h2, h3, h4⟩ := hp
  have hi : i + 1 < t.length := getElem?_lt _ _ _ h2
  refine ⟨?_, ?_, ?_, ?_⟩
  · rw [List.getElem?_append_left (by omega)]; exact h1
  · rw [List.getElem?_append_left hi]; exact h2
  · rw [List.take_append_of_le_length (by omega)]; exact h3
  · rw [List.take_append_of_le_length (by omega)]; exact h4

theorem check_failed_shrink (sdk : Sdk) (t : Trace) (c : SdkCall) (i : Nat) (h : Handle)
    (hf : check_failed sdk (t ++ [c]) i h) (hi : i + 1 < t.length) :
    check_failed sdk t i h := by
  obtain ⟨h1, h2, h3⟩ := hf
  rw [List.getElem?_append_left (by omega)] at h1
  rw [List.getElem?_append_left hi] at h2
  rw [List.take_append_of_le_length (by omega), List.take_append_of_le_length (by omega)] at h3
  exact ⟨h1, h2, h3⟩

theorem check_failed_last (sdk : Sdk) (t : Trace) (c : SdkCall) (i : Nat) (h : Handle)
    (hf : check_failed sdk (t ++ [c]) i h) :
    i + 1 < t.length ∨ (i + 1 = t.length ∧ c = .spinNodeIsWritable h) := by
  have hi : i + 1 < (t ++ [c]).length := getElem?_lt _ _ _ hf.2.1
  simp only [List.length_append, List.length_singleton] at hi
  rcases Nat.lt_or_ge (i + 1) t.length with hlt | hge
  · exact Or.inl hlt
  · have he : i + 1 = t.length := by omega
    refine Or.inr ⟨he, ?_⟩
    have h2 := hf.2.1
    rw [he, getElem?_snoc_eq] at h2
    exact Option.some.inj h2

theorem wrote_grow (sdk : Sdk) (t l : Trace) (b : Nat) (hNodeMap : Handle) (name : NodeName)
    (hw : wrote sdk t b hNodeMap name) : wrote sdk (t ++ l) b hNodeMap name := by
  obtain ⟨i, p, c, hb, hip, h1, h2, h3, h4⟩ := hw
  have hp : p < t.length := getElem?_lt _ _ _ h2
  refine ⟨i, p, c, hb, hip, ?_, ?_, ?_, ?_⟩
  · rw [List.getElem?_append_left (by omega)]; exact h1
  · rw [List.getElem?_append_left hp]; exact h2
  · rw [List.take_append_of_le_length (by omega)]; exact h3
  · rw [List.take_append_of_le_length (by omega)]; exact h4

/-! steps -/

theorem inv_plain (sdk : Sdk) (b : Nat) (t : Trace) (c : SdkCall)
    (hinv : configure_inv sdk b t) (hw : written_node c = none)
    (hc : ∀ h, c ≠ .spinNodeIsWritable h) : configure_inv sdk b (t ++ [c]) := by
  obtain ⟨hG, hN⟩ := hinv
  constructor
  · intro p c' h hb hp hwn
    have hlt : p < (t ++ [c]).length := getElem?_lt _ _ _ hp
    simp only [List.length_append, List.length_singleton] at hlt
    rcases Nat.lt_or_ge p t.length with hpt | hpt
    · rw [List.getElem?_append_left hpt] at hp
      obtain ⟨i, hi1, hi2, hi3⟩ := hG p c' h hb hp hwn
      exact ⟨i, hi1, hi2, check_passed_grow sdk t [c] i h hi3⟩
    · have he : p = t.length := by omega
      rw [he, getElem?_snoc_eq] at hp
      cases hp
      rw [hw] at hwn
      cases hwn
  · intro i h hb hf
    rcases check_failed_last sdk t c i h hf with hlt | ⟨_, he⟩
    · exact hN i h hb (check_failed_shrink sdk t c i h hf hlt)
    · exact hc h he

theorem inv_write (sdk : Sdk) (b : Nat) (t : Trace) (c : SdkCall) (h : Handle)
    (hinv : configure_inv sdk b t)
    (hchk : ∃ i, b ≤ i ∧ i + 1 < t.length ∧ check_passed sdk t i h)
    (hw : written_node c = some h) : configure_inv sdk b (t ++ [c]) := by
  obtain ⟨hG, hN⟩ := hinv
  constructor
  · intro p c' h' hb hp hwn
    have hlt : p < (t ++ [c]).length := getElem?_lt _ _ _ hp
    simp only [List.length_append, List.length_singleton] at hlt
    rcases Nat.lt_or_ge p t.length with hpt | hpt
    · rw [List.getElem?_append_left hpt] at hp
      obtain ⟨i, hi1, hi2, hi3⟩ := hG p c' h' hb hp hwn
      exact ⟨i, hi1, hi2, check_passed_grow sdk t [c] i h' hi3⟩
    · have he : p = t.length := by omega
      rw [he, getElem?_snoc_eq] at hp
      cases hp
      rw [hw] at hwn
      cases hwn
      obtain ⟨i, hi1, hi2, hi3⟩ := hchk
      exact ⟨i, hi1, by omega, check_passed_grow sdk t [c] i h hi3⟩
  · intro i h' hb hf
    rcases check_failed_last sdk t c i h' hf with hlt | ⟨_, he⟩
    · exact hN i h' hb (check_failed_shrink sdk t c i h' hf hlt)
    · rw [he] at hw
      cases hw

theorem inv_check (sdk : Sdk) (b : Nat) (t : Trace) (h : Handle)
    (hinv : configure_inv sdk b t)
    (hA : (sdk t (.spinNodeIsAvailable h)).flag = true)
    (hW : (sdk (t ++ [.spinNodeIsAvailable h]) (.spinNodeIsWritable h)).flag = true) :
    configure_inv sdk b (t ++ [.spinNodeIsAvailable h] ++ [.spinNodeIsWritable h]) ∧
    check_passed sdk (t ++ [.spinNodeIsAvailable h] ++ [.spinNodeIsWritable h]) t.length h := by
  have h1 : configure_inv sdk b (t ++ [.spinNodeIsAvailable h]) :=
    inv_plain sdk b t _ hinv rfl (by intro h' e; cases e)
  have hcp : check_passed sdk (t ++ [.spinNodeIsAvailable h] ++ [.spinNodeIsWritable h])
      t.length h := by
    refine ⟨?_, ?_, ?_, ?_⟩
    · rw [List.getElem?_append_left (by simp), getElem?_snoc_eq]
    · have := getElem?_snoc_eq (t ++ [SdkCall.spinNodeIsAvailable h]) (.spinNodeIsWritable h)
      simpa using this
    · rw [List.append_assoc, List.take_append_of_le_length (le_refl _), List.take_length]
      exact hA
    · rw [List.take_append_of_le_length (by simp)]
      have : (t ++ [SdkCall.spinNodeIsAvailable h]).take (t.length + 1)
          = t ++ [SdkCall.spinNodeIsAvailable h] := by
        rw [List.take_of_length_le (by simp)]
      rw [this]
      exact hW
  refine ⟨⟨?_, ?_⟩, hcp⟩
  · intro p c' h' hb hp hwn
    have hlt : p < (t ++ [SdkCall.spinNodeIsAvailable h]
        ++ [SdkCall.spinNodeIsWritable h]).length :=
      getElem?_lt _ _ _ hp
    simp only [List.length_append, List.length_singleton] at hlt
    rcases Nat.lt_or_ge p (t ++ [SdkCall.spinNodeIsAvailable h]).length with hpt | hpt
    · rw [List.getElem?_append_left hpt] at hp
      obtain ⟨i, hi1, hi2, hi3⟩ := h1.1 p c' h' hb hp hwn
      exact ⟨i, hi1, hi2, check_passed_grow sdk _ _ i h' hi3⟩
    · simp only [List.length_append, List.length_singleton] at hpt
      have he : p = (t ++ [SdkCall.spinNodeIsAvailable h]).length := by simp; omega
      rw [he, getElem?_snoc_eq] at hp
      cases hp
      cases hwn
  · intro i h' hb hf
    rcases check_failed_last sdk _ _ i h' hf with hlt | ⟨hi, he⟩
    · exact h1.2 i h' hb (check_failed_shrink sdk _ _ i h' hf hlt)
    · cases he
      obtain ⟨_, _, h3⟩ := hf
      simp only [List.length_append, List.length_singleton] at hi
      have hi' : i = t.length := by omega
      subst hi'
      rw [List.take_append_of_le_length (by simp)] at h3
      have e1 : (t ++ [SdkCall.spinNodeIsAvailable h]).take (t.length + 1)
          = t ++ [SdkCall.spinNodeIsAvailable h] := by
        rw [List.take_of_length_le (by simp)]
      have e2 : (t ++ [SdkCall.spinNodeIsAvailable h] ++ [SdkCall.spinNodeIsWritable h]).take
          t.length = t := by
        rw [List.append_assoc, List.take_append_of_le_length (le_refl _), List.take_length]
      rw [e1, e2, hA, hW] at h3
      cases h3




theorem configure_eq_stages (sdk : Sdk) (hNodeMap : Handle) (tr : Trace) :
    ConfigureCustomImageSettings sdk hNodeMap tr
      = configure_pixel_format sdk hNodeMap tr fun _ tr =>
        configure_integer sdk hNodeMap .OffsetX .spinIntegerGetMin tr fun _ tr =>
        configure_integer sdk hNodeMap .OffsetY .spinIntegerGetMin tr fun _ tr =>
        configure_integer sdk hNodeMap .Width .spinIntegerGetMax tr fun _ tr =>
        configure_integer sdk hNodeMap .Height .spinIntegerGetMax tr fun r tr =>
        (r.err, tr) := rfl

theorem access_denied_ne_success : SPINNAKER_ERR_ACCESS_DENIED ≠ SPINNAKER_ERR_SUCCESS := by
  decide

theorem post_plain (sdk : Sdk) (b : Nat) (hNodeMap : Handle) (t : Trace) (e : spinError)
    (hinv : configure_inv sdk b t) (he : e ≠ SPINNAKER_ERR_SUCCESS) :
    configure_post sdk b hNodeMap (e, t) :=
  ⟨hinv.1, fun i h hb hf => absurd hf (hinv.2 i h hb), fun hs => absurd hs he⟩

theorem post_success (sdk : Sdk) (b : Nat) (hNodeMap : Handle) (t : Trace) (e : spinError)
    (hinv : configure_inv sdk b t) (hw : ∀ name, wrote sdk t b hNodeMap name) :
    configure_post sdk b hNodeMap (e, t) :=
  ⟨hinv.1, fun i h hb hf => absurd hf (hinv.2 i h hb), fun _ => hw⟩

theorem post_check (sdk : Sdk) (b : Nat) (hNodeMap : Handle) (t : Trace) (h : Handle)
    (hinv : configure_inv sdk b t) :
    configure_post sdk b hNodeMap
      (SPINNAKER_ERR_ACCESS_DENIED, t ++ [.spinNodeIsAvailable h] ++ [.spinNodeIsWritable h]) := by
  have h1 : configure_inv sdk b (t ++ [.spinNodeIsAvailable h]) :=
    inv_plain sdk b t _ hinv rfl (by intro h' e; cases e)
  refine ⟨?_, ?_, fun hs => absurd hs access_denied_ne_success⟩
  · intro p c' h' hb hp hwn
    have hlt : p < (t ++ [SdkCall.spinNodeIsAvailable h]
        ++ [SdkCall.spinNodeIsWritable h]).length := getElem?_lt _ _ _ hp
    simp only [List.length_append, List.length_singleton] at hlt
    rcases Nat.lt_or_ge p (t ++ [SdkCall.spinNodeIsAvailable h]).length with hpt | hpt
    · rw [List.getElem?_append_left hpt] at hp
      obtain ⟨i, hi1, hi2, hi3⟩ := h1.1 p c' h' hb hp hwn
      exact ⟨i, hi1, hi2, check_passed_grow sdk _ _ i h' hi3⟩
    · simp only [List.length_append, List.length_singleton] at hpt
      have he : p = (t ++ [SdkCall.spinNodeIsAvailable h]).length := by simp; omega
      rw [he, getElem?_snoc_eq] at hp
      cases hp
      cases hwn
  · intro i h' hb hf
    rcases check_failed_last sdk _ _ i h' hf with hlt | ⟨hi, _⟩
    · exact absurd (check_failed_shrink sdk _ _ i h' hf hlt) (h1.2 i h' hb)
    · refine ⟨rfl, ?_⟩
      simp only [List.length_append, List.length_singleton] at hi ⊢
      omega

theorem configure_integer_post (sdk : Sdk) (b : Nat) (hNodeMap : Handle) (name : NodeName)
    (bound : Handle → SdkCall) (tr : Trace) (k : Reply → Trace → spinError × Trace)
    (hbound : ∀ h, written_node (bound h) = none ∧ ∀ h', bound h ≠ .spinNodeIsWritable h')
    (hinv : configure_inv sdk b tr) (hb : b ≤ tr.length)
    (hk : ∀ r t, configure_inv sdk b t → b ≤ t.length →
      (∀ n, wrote sdk tr b hNodeMap n → wrote sdk t b hNodeMap n) →
      wrote sdk t b hNodeMap name → configure_post sdk b hNodeMap (k r t)) :
    configure_post sdk b hNodeMap (configure_integer sdk hNodeMap name bound tr k) := by
  unfold configure_integer spin IsAvailableAndWritable spin
  dsimp only
  have i1 := inv_plain sdk b tr (.spinNodeMapGetNode hNodeMap name) hinv rfl
    (by intro h e; cases e)
  split_ifs with e1 e2 e3 e4
  · exact post_plain sdk b hNodeMap _ _ i1 e1
  · exact post_check sdk b hNodeMap _ _ i1
  all_goals
    have hflags := Bool.and_eq_true_iff.mp (Bool.not_eq_false _ ▸ e2 : _ = true)
    obtain ⟨i2, cp⟩ := inv_check sdk b _ _ i1 hflags.2 hflags.1
    have i3 := inv_plain sdk b _ (bound (sdk tr (.spinNodeMapGetNode hNodeMap name)).handle) i2
      (hbound _).1 (hbound _).2
  · exact post_plain sdk b hNodeMap _ _ i3 e3
  all_goals
    have i4 := inv_write sdk b _
      (.spinIntegerSetValue (sdk tr (.spinNodeMapGetNode hNodeMap name)).handle
        (sdk (tr ++ [SdkCall.spinNodeMapGetNode hNodeMap name]
          ++ [SdkCall.spinNodeIsAvailable (sdk tr (.spinNodeMapGetNode hNodeMap name)).handle]
          ++ [SdkCall.spinNodeIsWritable (sdk tr (.spinNodeMapGetNode hNodeMap name)).handle])
          (bound (sdk tr (.spinNodeMapGetNode hNodeMap name)).handle)).value) _ i3
      ⟨(tr ++ [SdkCall.spinNodeMapGetNode hNodeMap name]).length,
        by simp only [List.length_append, List.length_singleton]; omega,
        by simp only [List.length_append, List.length_singleton]; omega,
        check_passed_grow sdk _ _ _ _ cp⟩ rfl
  · exact post_plain sdk b hNodeMap _ _ i4 e4
  · refine hk _ _ i4 (by simp only [List.length_append, List.length_singleton]; omega)
      (fun n hw => wrote_grow sdk _ _ b hNodeMap n (wrote_grow sdk _ _ b hNodeMap n
        (wrote_grow sdk _ _ b hNodeMap n (wrote_grow sdk _ _ b hNodeMap n
          (wrote_grow sdk _ _ b hNodeMap n hw))))) ?_
    refine ⟨tr.length, tr.length + 4,
      .spinIntegerSetValue (sdk tr (.spinNodeMapGetNode hNodeMap name)).handle
        (sdk (tr ++ [SdkCall.spinNodeMapGetNode hNodeMap name]
          ++ [SdkCall.spinNodeIsAvailable (sdk tr (.spinNodeMapGetNode hNodeMap name)).handle]
          ++ [SdkCall.spinNodeIsWritable (sdk tr (.spinNodeMapGetNode hNodeMap name)).handle])
          (bound (sdk tr (.spinNodeMapGetNode hNodeMap name)).handle)).value,
      hb, (by omega), ?_, ?_, ?_, ?_⟩
    · simp only [List.append_assoc, List.singleton_append]
      exact getElem?_append_add tr _ 0
    · simp only [List.append_assoc, List.singleton_append]
      exact getElem?_append_add tr _ 4
    · simp only [List.append_assoc, List.singleton_append]
      rw [List.take_append_of_le_length (le_refl _), List.take_length]
      rfl
    · simp only [List.append_assoc, List.singleton_append]
      rw [List.take_append]
      simpa only [List.append_assoc, List.singleton_append, ne_eq, not_not] using e4

theorem wrote_intro (sdk : Sdk) (tr l : Trace) (b : Nat) (hNodeMap : Handle) (name : NodeName)
    (k : Nat) (c : SdkCall) (hb : b ≤ tr.length)
    (h0 : l[0]? = some (.spinNodeMapGetNode hNodeMap name)) (hk : l[k]? = some c) (hpos : 0 < k)
    (hw : written_node c = some (sdk tr (.spinNodeMapGetNode hNodeMap name)).handle)
    (he : (sdk (tr ++ l.take k) c).err = SPINNAKER_ERR_SUCCESS) :
    wrote sdk (tr ++ l) b hNodeMap name := by
  refine ⟨tr.length, tr.length + k, c, hb, by omega, ?_, ?_, ?_, ?_⟩
  · exact (getElem?_append_add tr l 0).trans h0
  · exact (getElem?_append_add tr l k).trans hk
  · rw [List.take_append_of_le_length (le_refl _), List.take_length]
    exact hw
  · rw [List.take_append]
    exact he

theorem configure_pixel_format_post (sdk : Sdk) (b : Nat) (hNodeMap : Handle) (tr : Trace)
    (k : Reply → Trace → spinError × Trace)
    (hinv : configure_inv sdk b tr) (hb : b ≤ tr.length)
    (hk : ∀ r t, configure_inv sdk b t → b ≤ t.length →
      wrote sdk t b hNodeMap .PixelFormat → configure_post sdk b hNodeMap (k r t)) :
    configure_post sdk b hNodeMap (configure_pixel_format sdk hNodeMap tr k) := by
  unfold configure_pixel_format spin IsAvailableAndReadable IsAvailableAndWritable spin
  dsimp only
  split_ifs with e1 e2 e3 e4 e5 e6 e7
  · exact post_plain sdk b hNodeMap _ _ (by
      repeat first | exact hinv | refine inv_plain sdk b _ _ ?_ rfl (by intro h e; cases e)) e1
  · exact post_plain sdk b hNodeMap _ _ (by
      repeat first | exact hinv | refine inv_plain sdk b _ _ ?_ rfl (by intro h e; cases e))
      access_denied_ne_success
  · exact post_plain sdk b hNodeMap _ _ (by
      repeat first | exact hinv | refine inv_plain sdk b _ _ ?_ rfl (by intro h e; cases e)) e3
  · exact post_plain sdk b hNodeMap _ _ (by
      repeat first | exact hinv | refine inv_plain sdk b _ _ ?_ rfl (by intro h e; cases e))
      access_denied_ne_success
  · exact post_plain sdk b hNodeMap _ _ (by
      repeat first | exact hinv | refine inv_plain sdk b _ _ ?_ rfl (by intro h e; cases e)) e5
  · exact post_check sdk b hNodeMap _ _ (by
      repeat first | exact hinv | refine inv_plain sdk b _ _ ?_ rfl (by intro h e; cases e))
  all_goals
    have hflags := Bool.and_eq_true_iff.mp (Bool.not_eq_false _ ▸ e6 : _ = true)
    have ic := inv_check sdk b _ _ (by
      repeat first | exact hinv | refine inv_plain sdk b _ _ ?_ rfl (by intro h e; cases e))
      hflags.2 hflags.1
  · refine post_plain sdk b hNodeMap _ _ (inv_write sdk b _ _ _ ic.1 ⟨_, ?_, ?_, ic.2⟩ rfl) e7
    · simp only [List.length_append, List.length_singleton]; omega
    · simp only [List.length_append, List.length_singleton]; omega
  · refine hk _ _ (inv_write sdk b _ _ _ ic.1 ⟨_, ?_, ?_, ic.2⟩ rfl) ?_ ?_
    · simp only [List.length_append, List.length_singleton]; omega
    · simp only [List.length_append, List.length_singleton]; omega
    · simp only [List.length_append, List.length_singleton]; omega
    · simp only [List.append_assoc, List.singleton_append]
      refine wrote_intro sdk tr _ b hNodeMap _ 9 _ hb rfl rfl (by omega) rfl ?_
      simpa only [List.append_assoc, List.singleton_append, ne_eq, not_not] using e7

theorem configure_inv_start (sdk : Sdk) (tr : Trace) : configure_inv sdk tr.length tr :=
  ⟨fun _ _ _ hb hp _ => absurd (getElem?_lt _ _ _ hp) (by omega),
   fun _ _ hb hf => absurd (getElem?_lt _ _ _ hf.1) (by omega)⟩

theorem configure_settings_post (sdk : Sdk) (hNodeMap : Handle) (tr : Trace) :
    configure_post sdk tr.length hNodeMap (ConfigureCustomImageSettings sdk hNodeMap tr) := by
  have hmin : ∀ h, written_node (.spinIntegerGetMin h) = none ∧
      ∀ h', SdkCall.spinIntegerGetMin h ≠ .spinNodeIsWritable h' :=
    fun h => ⟨rfl, fun h' e => by cases e⟩
  have hmax : ∀ h, written_node (.spinIntegerGetMax h) = none ∧
      ∀ h', SdkCall.spinIntegerGetMax h ≠ .spinNodeIsWritable h' :=
    fun h => ⟨rfl, fun h' e => by cases e⟩
  rw [configure_eq_stages]
  refine configure_pixel_format_post sdk _ hNodeMap tr _ (configure_inv_start sdk tr) le_rfl
    fun _ t1 i1 b1 w1 => ?_
  refine configure_integer_post sdk _ hNodeMap .OffsetX _ t1 _ hmin i1 b1
    fun _ t2 i2 b2 g2 w2 => ?_
  refine configure_integer_post sdk _ hNodeMap .OffsetY _ t2 _ hmin i2 b2
    fun _ t3 i3 b3 g3 w3 => ?_
  refine configure_integer_post sdk _ hNodeMap .Width _ t3 _ hmax i3 b3
    fun _ t4 i4 b4 g4 w4 => ?_
  refine configure_integer_post sdk _ hNodeMap .Height _ t4 _ hmax i4 b4
    fun r t5 i5 _ g5 w5 => ?_
  refine post_success sdk _ hNodeMap t5 r.err i5 fun name => ?_
  cases name
  · exact g5 _ (g4 _ (g3 _ (g2 _ w1)))
  · exact g5 _ (g4 _ (g3 _ w2))
  · exact g5 _ (g4 _ w3)
  · exact g5 _ w4
  · exact w5

/-- C14: in every run of ConfigureCustomImageSettings, from any call history and under any SDK
behaviour, (1) every write call (spinEnumerationSetIntValue, spinIntegerSetValue) is preceded in the
run by an availability-and-writability check of the written node whose two answers were both true;
(2) a check of a node that is not both available and writable is the end of the run: the function
returns SPINNAKER_ERR_ACCESS_DENIED and issues no further call, hence no write for that node or
any later node; (3) if the function returns success, then for each of PixelFormat, OffsetX,
OffsetY, Width and Height the node was looked up and a write to the handle obtained was issued and
reported success. -/
theorem configure_writes_only_after_check (sdk : Sdk) (hNodeMap : Handle) (tr : Trace) :
    (∀ p c h, tr.length ≤ p →
      (ConfigureCustomImageSettings sdk hNodeMap tr).2[p]? = some c → written_node c = some h →
      ∃ i, tr.length ≤ i ∧ i + 1 < p ∧
        check_passed sdk (ConfigureCustomImageSettings sdk hNodeMap tr).2 i h) ∧
    (∀ i h, tr.length ≤ i →
      check_failed sdk (ConfigureCustomImageSettings sdk hNodeMap tr).2 i h →
      (ConfigureCustomImageSettings sdk hNodeMap tr).1 = SPINNAKER_ERR_ACCESS_DENIED ∧
      (ConfigureCustomImageSettings sdk hNodeMap tr).2.length = i + 2) ∧
    ((ConfigureCustomImageSettings sdk hNodeMap tr).1 = SPINNAKER_ERR_SUCCESS →
      wrote sdk (ConfigureCustomImageSettings sdk hNodeMap tr).2 tr.length hNodeMap .PixelFormat ∧
      wrote sdk (ConfigureCustomImageSettings sdk hNodeMap tr).2 tr.length hNodeMap .OffsetX ∧
      wrote sdk (ConfigureCustomImageSettings sdk hNodeMap tr).2 tr.length hNodeMap .OffsetY ∧
      wrote sdk (ConfigureCustomImageSettings sdk hNodeMap tr).2 tr.length hNodeMap .Width ∧
      wrote sdk (ConfigureCustomImageSettings sdk hNodeMap tr).2 tr.length hNodeMap .Height) :=
  have h := configure_settings_post sdk hNodeMap tr
  ⟨h.1, h.2.1, fun hs => ⟨h.2.2 hs _, h.2.2 hs _, h.2.2 hs _, h.2.2 hs _, h.2.2 hs _⟩⟩

theorem configure_writes_only_after_check_witness :
    ((ConfigureCustomImageSettings sdk_width_read_only (some 4) []).1 = SPINNAKER_ERR_ACCESS_DENIED ∧
      (ConfigureCustomImageSettings sdk_width_read_only (some 4) []).2.length = 21 + 2) ∧
    (∃ i, ([] : Trace).length ≤ i ∧ i + 1 < 24 ∧
      check_passed sdk_ok (ConfigureCustomImageSettings sdk_ok (some 4) []).2 i (some 13)) ∧
    wrote sdk_ok (ConfigureCustomImageSettings sdk_ok (some 4) []).2 ([] : Trace).length (some 4)
      .Height :=
  ⟨(configure_writes_only_after_check sdk_width_read_only (some 4) []).2.1 21 (some 13)
      (by decide) (by unfold check_failed; decide),
   (configure_writes_only_after_check sdk_ok (some 4) []).1 24
      (.spinIntegerSetValue (some 13) 640) (some 13) (by decide) (by decide) rfl,
   ((configure_writes_only_after_check sdk_ok (some 4) []).2.2 (by decide)).2.2.2.2⟩

end GstSpinnaker
